import Mathlib

/-!
The chat hub and the chat service of upskill.

A shallow embedding of `internal/chat/hub.go` and of the handlers of
`internal/chat/service.go`, followed by theorems about them.

The embedding is sequential: one call runs to completion before the next one
starts. What a call does to the `sync.RWMutex` of the hub is listed apart, as
the steps of each method in program order.
-/

namespace Upskill

/-! ## Values shared by the hub and the service -/

/-- A `*websocket.Conn`: only the identity of the pointer matters to the hub. -/
abbrev Conn := Nat

/-- A `time.Time` in UTC, as a count of clock ticks since the epoch. -/
abbrev Time := Int

/-- The struct `Msg` local to `Service.History`. -/
structure HistoryMsg where
  ID : Int
  AuthorID : Int
  AuthorType : String
  Body : String
  CreatedAt : Time
deriving DecidableEq, Repr

/-- The struct `Msg` local to `Service.GlobalHistory`. -/
structure GlobalHistoryMsg where
  ID : Int
  AuthorID : Int
  Author : String
  Body : String
  CreatedAt : Time
deriving DecidableEq, Repr

/-- The values a handler stores in a `map[string]any` payload. -/
inductive JSONValue where
  | str (s : String)
  | int (n : Int)
  | time (t : Time)
  | msgs (items : List HistoryMsg)
  | globalMsgs (items : List GlobalHistoryMsg)
deriving DecidableEq, Repr

/-- A `map[string]any` literal, its entries in the order the source writes them. -/
abbrev Payload := List (String × JSONValue)

/-! ## `internal/chat/hub.go` -/

/-- The hub: `rooms map[string]map[*websocket.Conn]struct{}`. A key that is not
in the outer map reads as `none`; an inner map is the set of its keys. -/
@[ext]
structure Hub where
  rooms : String → Option (Finset Conn)

/-- `NewHub`: an empty outer map. -/
def NewHub : Hub := ⟨fun _ => none⟩

/-- The expression `h.rooms[room]` in a reading position: a missing key yields
the nil map, which has no keys. -/
def Hub.members (h : Hub) (room : String) : Finset Conn :=
  (h.rooms room).getD ∅

/-- `Hub.Join`: create the inner map when the key is missing, then store `c`
in it. -/
def Hub.Join (h : Hub) (room : String) (c : Conn) : Hub :=
  let rooms1 : String → Option (Finset Conn) :=
    if (h.rooms room).isSome then h.rooms
    else Function.update h.rooms room (some ∅)
  ⟨Function.update rooms1 room (some (insert c ((rooms1 room).getD ∅)))⟩

/-- `Hub.Leave`: when the key is present, delete `c` from the inner map (which
the outer map shares), and delete the key when the inner map is left empty. -/
def Hub.Leave (h : Hub) (room : String) (c : Conn) : Hub :=
  match h.rooms room with
  | some m =>
    let m1 := m.erase c
    let rooms1 := Function.update h.rooms room (some m1)
    if m1.card = 0 then ⟨Function.update rooms1 room none⟩ else ⟨rooms1⟩
  | none => h

/-- One `for c := range m` over an inner map: the Go runtime picks the order,
and visits every key once. Each `range` statement may use another order. -/
structure RangeOrder where
  keys : Finset Conn → List Conn
  nodup : ∀ s, (keys s).Nodup
  mem_keys : ∀ s c, c ∈ keys s ↔ c ∈ s

/-- The range order that visits the connections by increasing address. -/
def RangeOrder.ascending : RangeOrder where
  keys s := (List.range (s.sup id + 1)).filter fun c => c ∈ s
  nodup s := (List.nodup_range _).filter _
  mem_keys s c := by
    simp only [List.mem_filter, List.mem_range, decide_eq_true_eq, and_iff_right_iff_imp]
    intro hc
    exact Nat.lt_succ_of_le (Finset.le_sup (f := id) hc)

/-- One call `c.WriteJSON(payload)` made by `Broadcast`, with whether it
returned an error. -/
structure Send where
  conn : Conn
  payload : Payload
  failed : Bool
deriving DecidableEq, Repr

/-- What a call of `Hub.Broadcast` leaves behind: the hub, and the sends it
made, in order. The Go function has no result value. -/
structure BroadcastResult where
  hub : Hub
  sends : List Send

/-- `Hub.Broadcast`: copy the keys of `h.rooms[room]` into the slice `conns`,
then call `WriteJSON` on each and drop its error. `fails c` tells whether the
write to `c` returns an error. -/
def Hub.Broadcast (it : RangeOrder) (fails : Conn → Bool) (h : Hub) (room : String)
    (payload : Payload) : BroadcastResult :=
  let conns := (it.keys (h.members room)).foldl (fun conns c => conns ++ [c]) []
  { hub := h
    sends := conns.foldl (fun sends c => sends ++ [⟨c, payload, fails c⟩]) [] }

/-- A call on the hub. -/
inductive HubCall where
  | join (room : String) (c : Conn)
  | leave (room : String) (c : Conn)
  | broadcast (it : RangeOrder) (fails : Conn → Bool) (room : String) (payload : Payload)

/-- The hub after one call. -/
def Hub.step (h : Hub) : HubCall → Hub
  | .join room c => h.Join room c
  | .leave room c => h.Leave room c
  | .broadcast it fails room payload => (h.Broadcast it fails room payload).hub

/-- The hub after a sequence of calls, the first of the list first. -/
def Hub.run (h : Hub) (calls : List HubCall) : Hub :=
  calls.foldl Hub.step h

/-- No key of the outer map holds an empty inner map. -/
def Hub.NoEmptyRoom (h : Hub) : Prop :=
  ∀ room, h.rooms room ≠ some ∅

/-! ## The hub's methods, statement by statement -/

/-- One step of a method of the hub: an operation on `h.mu`, a read or a write
of the map `h.rooms` or of the inner map of a room, or a call of `WriteJSON`
on a connection. -/
inductive HubAction where
  | lock
  | unlock
  | rlock
  | runlock
  | read (room : String)
  | write (room : String)
  | send (c : Conn)
deriving DecidableEq, Repr

/-- The steps of `Hub.Join`, in program order: `h.mu.Lock()`; the lookup
`h.rooms[room]`; the store of a new inner map when the key is missing; the
lookup and store of `h.rooms[room][c] = struct{}{}`; `h.mu.Unlock()`. -/
def Hub.JoinActions (h : Hub) (room : String) : List HubAction :=
  [.lock, .read room] ++ (if (h.rooms room).isSome then [] else [.write room])
    ++ [.read room, .write room, .unlock]

/-- The steps of `Hub.Leave`, in program order: `h.mu.Lock()`; the lookup
`h.rooms[room]`; when the key is present `delete(m, c)`, the read `len(m)` and,
when that is 0, `delete(h.rooms, room)`; `h.mu.Unlock()`. -/
def Hub.LeaveActions (h : Hub) (room : String) (c : Conn) : List HubAction :=
  [.lock, .read room]
    ++ (match h.rooms room with
        | some m =>
          [.write room, .read room] ++ (if (m.erase c).card = 0 then [.write room] else [])
        | none => [])
    ++ [.unlock]

/-- The steps of `Hub.Broadcast`, in program order: `h.mu.RLock()`; the read
`len(h.rooms[room])`; the `range` over `h.rooms[room]` that fills `conns`;
`h.mu.RUnlock()`; one `WriteJSON` for each connection of `conns`. -/
def Hub.BroadcastActions (it : RangeOrder) (h : Hub) (room : String) : List HubAction :=
  let conns := (it.keys (h.members room)).foldl (fun conns c => conns ++ [c]) []
  [.rlock, .read room, .read room, .runlock] ++ conns.map .send

/-! ## Library calls used by `internal/chat/service.go` -/

/-- The value of a run of decimal digits; `none` when the run is empty or holds
another character. -/
def parseDigits (cs : List Char) : Option Nat :=
  if cs.isEmpty then none
  else cs.foldlM (fun acc ch => if ch.isDigit then some (acc * 10 + (ch.toNat - 48)) else none) 0

/-- `strconv.ParseInt(s, 10, 64)`: an optional sign, then decimal digits, the
value within the range of `int64`; `none` stands for a non-nil error. -/
def ParseInt64 (s : String) : Option Int :=
  match s.data with
  | [] => none
  | '-' :: rest =>
    (parseDigits rest).bind fun un => if un > 2 ^ 63 then none else some (-(un : Int))
  | '+' :: rest =>
    (parseDigits rest).bind fun un => if un ≥ 2 ^ 63 then none else some (un : Int)
  | cs =>
    (parseDigits cs).bind fun un => if un ≥ 2 ^ 63 then none else some (un : Int)

/-- The decimal digits of `n`, most significant first. `fuel` bounds their
number; `n + 1` is enough for `n`. -/
def decimalDigits : Nat → Nat → List Char
  | 0, _ => []
  | fuel + 1, n =>
    if n < 10 then [Nat.digitChar n]
    else decimalDigits fuel (n / 10) ++ [Nat.digitChar (n % 10)]

/-- `strconv.FormatInt(i, 10)`: the decimal digits of `i`, most significant
first, after a minus sign when `i` is negative. -/
def FormatInt (i : Int) : String :=
  let digits : List Char := decimalDigits (i.natAbs + 1) i.natAbs
  ⟨if i < 0 then '-' :: digits else digits⟩

/-- The body and status code a handler writes. -/
inductive Body where
  | text (s : String)
  | json (v : Payload)
deriving DecidableEq, Repr

/-- What a handler wrote to its `http.ResponseWriter`. -/
structure Response where
  status : Nat
  body : Body
deriving DecidableEq, Repr

/-- `http.Error(w, msg, code)`: the status code and the message on a line. -/
def httpError (msg : String) (code : Nat) : Response :=
  ⟨code, .text (msg ++ "\n")⟩

/-- Modelled from the spec: `web.JSON` is not under src/. The spec has the
poster receive the payload as the HTTP response, so `web.JSON(w, code, v)`
answers with status `code` and body `v`. -/
def JSON (code : Nat) (v : Payload) : Response :=
  ⟨code, .json v⟩

/-- The parts of an `*http.Request` the chat handlers read. -/
structure Request where
  /-- The value stored under `ctxKeyUserID` by the JWT middleware, if any. -/
  ctxUserID : Option Int
  /-- The result of `chi.URLParam(r, name)`. -/
  urlParam : String → String
  /-- The result of `r.URL.Query().Get(name)`. -/
  query : String → String
  /-- The request body, undecoded. -/
  body : String

/-- `auth.UserID`: the identity the middleware stored, 0 when there is none. -/
def UserID (r : Request) : Int :=
  match r.ctxUserID with
  | none => 0
  | some v => v

/-- `web.ParamInt64`. -/
def ParamInt64 (r : Request) (name : String) : Option Int :=
  ParseInt64 (r.urlParam name)

/-- `strconv.Atoi`: `ParseInt(s, 10, 0)` converted to `int`, which has 64 bits
on the platforms the server is built for. -/
def Atoi (s : String) : Option Int :=
  ParseInt64 s

/-- `web.QueryInt`. -/
def QueryInt (r : Request) (name : String) (default : Int) : Int :=
  let v := r.query name
  if v = "" then default
  else
    match Atoi v with
    | none => default
    | some i => i

/-! ## The store -/

/-- A row of table `conversations`. The two participant columns are read
through `sql.NullInt64` by `isMember`, so they may be NULL. -/
structure ConversationRow where
  id : Int
  student_id : Option Int
  mentor_id : Option Int
deriving DecidableEq, Repr

/-- A row of table `messages`. -/
structure MessageRow where
  id : Int
  conversation_id : Int
  author_id : Int
  author_type : String
  body : String
  created_at : Time
deriving DecidableEq, Repr

/-- A row of table `global_messages`. -/
structure GlobalMessageRow where
  id : Int
  author_id : Int
  body : String
  created_at : Time
deriving DecidableEq, Repr

/-- A row of table `user_roles`. -/
structure UserRoleRow where
  user_id : Int
  role : String
deriving DecidableEq, Repr

/-- A row of table `users`, with the columns the chat handlers read. -/
structure UserRow where
  id : Int
  first_name : Option String
  last_name : Option String
deriving DecidableEq, Repr

/-- A row of table `mentorships`, with the columns the chat handlers read. -/
structure MentorshipRow where
  student_id : Int
  mentor_id : Int
  status : String
deriving DecidableEq, Repr

/-- The tables behind the `*pgxpool.Pool` that the chat handlers touch. -/
structure DB where
  conversations : List ConversationRow
  user_roles : List UserRoleRow
  messages : List MessageRow
  global_messages : List GlobalMessageRow
  users : List UserRow := []
  mentorships : List MentorshipRow := []
deriving DecidableEq, Repr

/-- The order in which the store meets the rows of a table during one
`SELECT`: some rearrangement of the rows. Rows that tie under `ORDER BY` come
out in this order. -/
structure ScanOrder (α : Type) where
  scan : List α → List α
  perm : ∀ l, (scan l).Perm l

/-- The scan that meets the rows from the last of the table to the first. -/
def ScanOrder.backward {α : Type} : ScanOrder α where
  scan l := l.reverse
  perm l := List.reverse_perm l

/-- The scan that meets the rows as the table lists them. -/
def ScanOrder.stored {α : Type} : ScanOrder α where
  scan l := l
  perm l := List.Perm.refl l

/-- A failed `s.upgrader.Upgrade(w, r, nil)`: the status and the text with
which the upgrader itself replied on `w` before it returned (`Upgrade` replies
to the client with an HTTP error response when it fails), and the text of the
error it returned. -/
structure UpgradeFailure where
  status : Nat
  reply : String
  err : String
deriving DecidableEq, Repr

/-- A frame that `conn.ReadMessage()` returns: its message type and its bytes. -/
structure Frame where
  messageType : Int
  data : String
deriving DecidableEq, Repr

/-- What lies outside a handler during one run of it. -/
structure Env where
  /-- The error with which the n-th statement of the run (from 0) comes back
  from the pool, if it does: a lost connection, a violated constraint. -/
  queryErr : Nat → Option String
  /-- The id the store assigns to a row inserted in this run. -/
  nextID : Int
  /-- The `created_at` the store assigns to a row inserted in this run. -/
  dbNow : Time
  /-- The reading of `time.Now().UTC()` in the handler. -/
  now : Time
  /-- The `Body` field that `web.DecodeJSON` (not under src/) fills from a
  request body; `none` when it returns an error. -/
  DecodeJSON : String → Option String
  /-- The order of the `range` loop in `Broadcast`. -/
  it : RangeOrder
  /-- The connections on which `WriteJSON` returns an error. -/
  fails : Conn → Bool
  /-- The fields `MentorID` and `StudentID` that `web.DecodeJSON` (not under
  src/) fills from a request body for `EnsureConversation`, each `none` when
  nil; `none` when it returns an error. -/
  DecodeEnsure : String → Option (Option Int × Option Int) := fun _ => none
  /-- The scan of table `messages` by the `SELECT` of `History`. -/
  scanMessages : ScanOrder MessageRow := ScanOrder.stored
  /-- The scan of table `global_messages` by the `SELECT` of `GlobalHistory`. -/
  scanGlobal : ScanOrder GlobalMessageRow := ScanOrder.stored
  /-- The result of `s.upgrader.Upgrade(w, r, nil)`: the connection, or the
  failure. -/
  Upgrade : Except UpgradeFailure Conn :=
    .error ⟨400, "Bad Request\n", "websocket: the client is not using the websocket protocol"⟩
  /-- The results of the successive calls of `conn.ReadMessage()`, as far as
  the run is observed: a frame, or the text of the error. -/
  reads : List (Except String Frame) := []

/-! ## `internal/chat/service.go` -/

/-- The struct `conversation`. -/
structure conversation where
  ID : Int
  StudentID : Int
  MentorID : Int
deriving DecidableEq, Repr

/-- The fields of `Service` that hold state: the pool and the hub. -/
structure Service where
  db : DB
  hub : Hub

/-- `roomName`. -/
def roomName (convID : Int) : String := "conv:" ++ FormatInt convID

/-- `Service.getConversation`, sent as the `n`-th statement of the run:
`SELECT id, student_id, mentor_id FROM conversations WHERE id=$1` scanned into
three `int64`. `none` stands for a non-nil error: the statement failed, no row
matched, or a column was NULL. -/
def Service.getConversation (env : Env) (n : Nat) (s : Service) (id : Int) :
    Option conversation :=
  match env.queryErr n with
  | some _ => none
  | none =>
    match s.db.conversations.find? (fun row => row.id = id) with
    | some ⟨cid, some sid, some mid⟩ => some ⟨cid, sid, mid⟩
    | _ => none

/-- Modelled from the spec: the migrations that declare table `messages` are
not under src/. The statement
`INSERT INTO messages(conversation_id, author_id, author_type, body) VALUES($1,$2,$3,$4) RETURNING id`,
sent as the `n`-th statement of the run: the store assigns `id` and
`created_at` with the insert. Returns the error, or the id and the table after
the insert. -/
def insertMessage (env : Env) (n : Nat) (db : DB) (convID uid : Int) (atype body : String) :
    Except String (Int × DB) :=
  match env.queryErr n with
  | some e => .error e
  | none =>
    .ok (env.nextID,
      { db with messages := db.messages ++ [⟨env.nextID, convID, uid, atype, body, env.dbNow⟩] })

/-- Modelled from the spec: the migrations that declare table `global_messages`
are not under src/. The statement
`INSERT INTO global_messages(author_id, body) VALUES($1,$2) RETURNING id`, sent
as the `n`-th statement of the run; `id` and `created_at` are assigned as for
`messages`. -/
def insertGlobalMessage (env : Env) (n : Nat) (db : DB) (uid : Int) (body : String) :
    Except String (Int × DB) :=
  match env.queryErr n with
  | some e => .error e
  | none =>
    .ok (env.nextID,
      { db with global_messages := db.global_messages ++ [⟨env.nextID, uid, body, env.dbNow⟩] })

/-- The statement
`SELECT EXISTS(SELECT 1 FROM user_roles WHERE user_id=$1 AND role IN ('student','mentor'))`,
sent as the `n`-th statement of the run; `none` stands for a non-nil error. -/
def hasChatRole (env : Env) (n : Nat) (db : DB) (uid : Int) : Option Bool :=
  match env.queryErr n with
  | some _ => none
  | none =>
    some (db.user_roles.any fun row =>
      decide (row.user_id = uid) && (row.role == "student" || row.role == "mentor"))

/-- A handler's run: its response, the service afterwards, the calls it made
to `Hub.Broadcast` (room and payload) and the sends those calls made. -/
structure Outcome where
  resp : Response
  svc : Service
  broadcasts : List (String × Payload)
  sends : List Send

/-- A run that ends on an early `return` after writing `resp`. -/
def Outcome.halt (s : Service) (resp : Response) : Outcome :=
  { resp := resp, svc := s, broadcasts := [], sends := [] }

/-- `Service.PostMessage`. -/
def Service.PostMessage (env : Env) (s : Service) (r : Request) : Outcome :=
  let uid := UserID r
  match ParamInt64 r "id" with
  | none => .halt s (httpError "bad id" 400)
  | some convID =>
    match s.getConversation env 0 convID with
    | none => .halt s (httpError "not found" 404)
    | some conv =>
      let atype : Option String :=
        if uid = conv.StudentID then some "student"
        else if uid = conv.MentorID then some "mentor"
        else none
      match atype with
      | none => .halt s (httpError "forbidden" 403)
      | some atype =>
        match env.DecodeJSON r.body with
        | none => .halt s (httpError "bad body" 400)
        | some body =>
          if body = "" then .halt s (httpError "bad body" 400)
          else
            match insertMessage env 1 s.db convID uid atype body with
            | .error e => .halt s (httpError e 500)
            | .ok (msgID, db1) =>
              let payload : Payload :=
                [("type", .str "message"), ("conversationId", .int convID), ("id", .int msgID),
                 ("authorId", .int uid), ("authorType", .str atype), ("body", .str body),
                 ("createdAt", .time env.now)]
              let room := roomName convID
              let b := s.hub.Broadcast env.it env.fails room payload
              { resp := JSON 200 payload
                svc := { db := db1, hub := b.hub }
                broadcasts := [(room, payload)]
                sends := b.sends }

/-- `Service.GlobalPost`. -/
def Service.GlobalPost (env : Env) (s : Service) (r : Request) : Outcome :=
  let uid := UserID r
  match hasChatRole env 0 s.db uid with
  | none => .halt s (httpError "forbidden" 403)
  | some false => .halt s (httpError "forbidden" 403)
  | some true =>
    match env.DecodeJSON r.body with
    | none => .halt s (httpError "bad body" 400)
    | some body =>
      if body = "" then .halt s (httpError "bad body" 400)
      else
        match insertGlobalMessage env 1 s.db uid body with
        | .error e => .halt s (httpError e 500)
        | .ok (id, db1) =>
          let payload : Payload :=
            [("type", .str "message"), ("scope", .str "global"), ("id", .int id),
             ("authorId", .int uid), ("body", .str body), ("createdAt", .time env.now)]
          let b := s.hub.Broadcast env.it env.fails "global" payload
          { resp := JSON 200 payload
            svc := { db := db1, hub := b.hub }
            broadcasts := [("global", payload)]
            sends := b.sends }

/-- The value a payload holds under a key. -/
def Payload.get (p : Payload) (key : String) : Option JSONValue :=
  (p.find? fun kv => kv.1 = key).map Prod.snd

/-- `Service.isMember`, sent as the `n`-th statement of the run:
`SELECT student_id, mentor_id FROM conversations WHERE id=$1` scanned into two
`sql.NullInt64`. Returns the boolean and the error, if any. -/
def Service.isMember (env : Env) (n : Nat) (s : Service) (convID uid : Int) :
    Bool × Option String :=
  match env.queryErr n with
  | some e => (false, some e)
  | none =>
    match s.db.conversations.find? (fun row => row.id = convID) with
    | none => (false, some "no rows in result set")
    | some row =>
      match row.student_id, row.mentor_id with
      | some sid, some mid => (decide (uid = sid) || decide (uid = mid), none)
      | _, _ => (false, some "invalid conversation")

/-- The rows in the order `ORDER BY created_at DESC` gives them after the scan
`scan`: newest first, rows of one instant as the scan met them. -/
def orderByCreatedAtDesc {α : Type} (created_at : α → Time) (scan : ScanOrder α)
    (rows : List α) : List α :=
  (scan.scan rows).insertionSort fun a b => created_at b ≤ created_at a

/-- The statement
`SELECT id, author_id, author_type, body, created_at FROM messages WHERE conversation_id=$1 ORDER BY created_at DESC LIMIT $2`,
sent as the `n`-th statement of the run, and the loop that scans its rows into
`items`. No column of the model is NULL, so every `rows.Scan` succeeds. -/
def selectMessages (env : Env) (n : Nat) (db : DB) (convID limit : Int) :
    Except String (List HistoryMsg) :=
  match env.queryErr n with
  | some e => .error e
  | none =>
    let rows := db.messages.filter fun row => row.conversation_id = convID
    let rows := orderByCreatedAtDesc MessageRow.created_at env.scanMessages rows
    .ok ((rows.take limit.toNat).map fun row =>
      ⟨row.id, row.author_id, row.author_type, row.body, row.created_at⟩)

/-- The statement of `GlobalHistory`, sent as the `n`-th statement of the run:
the rows of `global_messages`, each with the name of its author from the left
join with `users`, `ORDER BY gm.created_at DESC LIMIT $1`, and the loop that
scans its rows into `items`. -/
def selectGlobalMessages (env : Env) (n : Nat) (db : DB) (limit : Int) :
    Except String (List GlobalHistoryMsg) :=
  match env.queryErr n with
  | some e => .error e
  | none =>
    let rows := orderByCreatedAtDesc GlobalMessageRow.created_at env.scanGlobal db.global_messages
    let joined : List GlobalHistoryMsg := rows.flatMap fun gm =>
      match db.users.filter fun u => u.id = gm.author_id with
      | [] => [⟨gm.id, gm.author_id, " ", gm.body, gm.created_at⟩]
      | us => us.map fun u =>
          ⟨gm.id, gm.author_id, u.first_name.getD "" ++ " " ++ u.last_name.getD "", gm.body,
            gm.created_at⟩
    .ok (joined.take limit.toNat)

/-- The run of a handler that only reads messages: its response, the service
afterwards, and the `LIMIT` argument of the `SELECT` on the message table when
the handler sent that statement. -/
structure ReadOutcome where
  resp : Response
  svc : Service
  limit : Option Int

/-- `Service.GlobalHistory`. -/
def Service.GlobalHistory (env : Env) (s : Service) (r : Request) : ReadOutcome :=
  let limit := QueryInt r "limit" 50
  let limit := if limit ≤ 0 ∨ limit > 200 then 50 else limit
  match selectGlobalMessages env 0 s.db limit with
  | .error e => { resp := httpError e 500, svc := s, limit := some limit }
  | .ok items => { resp := JSON 200 [("items", .globalMsgs items)], svc := s, limit := some limit }

/-- `Service.History`. -/
def Service.History (env : Env) (s : Service) (r : Request) : ReadOutcome :=
  let uid := UserID r
  match ParamInt64 r "id" with
  | none => { resp := httpError "bad id" 400, svc := s, limit := none }
  | some convID =>
    if !(s.isMember env 0 convID uid).1 then
      { resp := httpError "forbidden" 403, svc := s, limit := none }
    else
      let limit := QueryInt r "limit" 50
      let limit := if limit ≤ 0 ∨ limit > 200 then 50 else limit
      match selectMessages env 1 s.db convID limit with
      | .error e => { resp := httpError e 500, svc := s, limit := some limit }
      | .ok items => { resp := JSON 200 [("items", .msgs items)], svc := s, limit := some limit }

/-- The statement
`SELECT EXISTS(SELECT 1 FROM mentorships WHERE student_id=$1 AND mentor_id=$2 AND status='active')`,
sent as the `n`-th statement of the run; `none` stands for a non-nil error. -/
def hasActiveMentorship (env : Env) (n : Nat) (db : DB) (sid mid : Int) : Option Bool :=
  match env.queryErr n with
  | some _ => none
  | none =>
    some (db.mentorships.any fun row =>
      decide (row.student_id = sid) && decide (row.mentor_id = mid) && row.status == "active")

/-- Modelled from the spec: the migrations that declare table `conversations`
and its uniqueness constraint on `(student_id, mentor_id)` are not under src/.
The statement
`INSERT INTO conversations(student_id, mentor_id) VALUES($1,$2) ON CONFLICT (student_id, mentor_id) DO UPDATE SET student_id=EXCLUDED.student_id RETURNING id`,
sent as the `n`-th statement of the run: the row of the pair is returned when
there is one (its update writes the value it holds), a row with a store-assigned
id is inserted otherwise. Returns the error, or the id and the tables after the
statement. -/
def upsertConversation (env : Env) (n : Nat) (db : DB) (sid mid : Int) :
    Except String (Int × DB) :=
  match env.queryErr n with
  | some e => .error e
  | none =>
    match db.conversations.find? fun row =>
        row.student_id = some sid ∧ row.mentor_id = some mid with
    | some row => .ok (row.id, db)
    | none =>
      .ok (env.nextID,
        { db with conversations := db.conversations ++ [⟨env.nextID, some sid, some mid⟩] })

/-- The part of `EnsureConversation` that follows the choice of `sid` and
`mid`: the check of the mentorship, the upsert and the response. -/
def Service.ensurePair (env : Env) (s : Service) (sid mid : Int) : Outcome :=
  match hasActiveMentorship env 0 s.db sid mid with
  | none => .halt s (httpError "no active mentorship" 403)
  | some false => .halt s (httpError "no active mentorship" 403)
  | some true =>
    match upsertConversation env 1 s.db sid mid with
    | .error e => .halt s (httpError e 500)
    | .ok (convID, db1) =>
      { resp := JSON 200 [("conversationId", .int convID)]
        svc := { db := db1, hub := s.hub }
        broadcasts := []
        sends := [] }

/-- `Service.EnsureConversation`. -/
def Service.EnsureConversation (env : Env) (s : Service) (r : Request) : Outcome :=
  let uid := UserID r
  match env.DecodeEnsure r.body with
  | none => .halt s (httpError "bad input" 400)
  | some (none, none) => .halt s (httpError "bad input" 400)
  | some (some MentorID, _) => s.ensurePair env uid MentorID
  | some (none, some StudentID) => s.ensurePair env StudentID uid

/-- What a websocket handler does that the hub or the client can observe. -/
inductive WSEvent where
  | upgrade (c : Conn)
  | join (room : String) (c : Conn)
  | read (frame : Frame)
  | leave (room : String) (c : Conn)
  | close (c : Conn)
deriving DecidableEq, Repr

/-- The run of a websocket handler: the response it wrote with `http.Error`,
if any; the service afterwards; what it did, in order; and whether it has
returned. A handler that has not returned waits in `ReadMessage`. -/
structure WSOutcome where
  resp : Option Response
  svc : Service
  events : List WSEvent
  returned : Bool

/-- A run that ends on an early `return` after writing `resp`. -/
def WSOutcome.halt (s : Service) (resp : Response) : WSOutcome :=
  { resp := some resp, svc := s, events := [], returned := true }

/-- The loop `for { if _, _, err := conn.ReadMessage(); err != nil { return } }`
over the results of the successive reads: the frames it read and dropped, and
whether it returned. -/
def readLoop : List (Except String Frame) → List Frame × Bool
  | [] => ([], false)
  | .error _ :: _ => ([], true)
  | .ok frame :: rest => (frame :: (readLoop rest).1, (readLoop rest).2)

/-- The part common to `ChatWS` and `GlobalWS` from the call of `Upgrade` on:
upgrade, join `room`, run the read loop, and when it returns run the deferred
`s.hub.Leave(room, conn); conn.Close()`. When `Upgrade` fails the upgrader has
replied already, so of `http.Error(w, err.Error(), 400)` the status is dropped,
a header being written once, and the text of the error is appended on a line. -/
def Service.serveWS (env : Env) (s : Service) (room : String) : WSOutcome :=
  match env.Upgrade with
  | .error failure =>
    .halt s ⟨failure.status, .text (failure.reply ++ failure.err ++ "\n")⟩
  | .ok conn =>
    let hub1 := s.hub.Join room conn
    let loop := readLoop env.reads
    if loop.2 then
      { resp := none
        svc := { db := s.db, hub := hub1.Leave room conn }
        events := [.upgrade conn, .join room conn] ++ loop.1.map .read
          ++ [.leave room conn, .close conn]
        returned := true }
    else
      { resp := none
        svc := { db := s.db, hub := hub1 }
        events := [.upgrade conn, .join room conn] ++ loop.1.map .read
        returned := false }

/-- `Service.GlobalWS`. -/
def Service.GlobalWS (env : Env) (s : Service) (r : Request) : WSOutcome :=
  let uid := UserID r
  match hasChatRole env 0 s.db uid with
  | none => .halt s (httpError "forbidden" 403)
  | some false => .halt s (httpError "forbidden" 403)
  | some true => s.serveWS env "global"

/-- `Service.ChatWS`. -/
def Service.ChatWS (env : Env) (s : Service) (r : Request) : WSOutcome :=
  let uid := UserID r
  let convIDStr := r.query "conversationId"
  if convIDStr = "" then .halt s (httpError "conversationId required" 400)
  else
    match ParseInt64 convIDStr with
    | none => .halt s (httpError "bad id" 400)
    | some convID =>
      match s.getConversation env 0 convID with
      | none => .halt s (httpError "not found" 404)
      | some conv =>
        if uid ≠ conv.StudentID ∧ uid ≠ conv.MentorID then
          .halt s (httpError "forbidden" 403)
        else s.serveWS env (roomName convID)

/-- Successive runs of `EnsureConversation`, each on the service that the one
before it left: the service at the end, and the responses in order. -/
def Service.ensureCalls (s : Service) : List (Env × Request) → Service × List Response
  | [] => (s, [])
  | (env, r) :: rest =>
    (((s.EnsureConversation env r).svc.ensureCalls rest).1,
      (s.EnsureConversation env r).resp
        :: ((s.EnsureConversation env r).svc.ensureCalls rest).2)

/-- The rows of table `conversations` for student `sid` and mentor `mid`. -/
def DB.conversationsOf (db : DB) (sid mid : Int) : List ConversationRow :=
  db.conversations.filter fun row => row.student_id = some sid ∧ row.mentor_id = some mid

/-! ## The scenario of the spec, as concrete inputs -/

/-- The store of the scenario: conversation 5 between seeker 1 and mentor 2. -/
def scenarioDB : DB :=
  { conversations := [⟨5, some 1, some 2⟩]
    user_roles := [⟨1, "student"⟩, ⟨2, "mentor"⟩]
    messages := []
    global_messages := [] }

/-- A service over `scenarioDB` with connection 7 joined to `conv:5` and
connection 8 joined to `global`. -/
def scenarioService : Service :=
  { db := scenarioDB, hub := (NewHub.Join "conv:5" 7).Join "global" 8 }

/-- A request body that decodes to the text `hi`. -/
def scenarioBody : String := "\x7b\"body\":\"hi\"\x7d"

/-- A run in which every statement succeeds, the store assigns id 42 and
`created_at` 1000, and the handler's clock reads 1003. -/
def scenarioEnv : Env :=
  { queryErr := fun _ => none
    nextID := 42
    dbNow := 1000
    now := 1003
    DecodeJSON := fun raw => if raw = scenarioBody then some "hi" else none
    it := RangeOrder.ascending
    fails := fun _ => false }

/-- The run of `scenarioEnv` in which the insert, statement 1, fails. -/
def scenarioEnvInsertFails : Env :=
  { scenarioEnv with queryErr := fun n => if n = 1 then some "connection reset" else none }

/-- The request of identity `uid` to post `hi` to conversation 5. -/
def scenarioRequest (uid : Int) : Request :=
  { ctxUserID := some uid
    urlParam := fun name => if name = "id" then "5" else ""
    query := fun _ => ""
    body := scenarioBody }

/-- The request of identity `uid` to read conversation `id` with the query
parameter `limit` (empty when the URL has none). -/
def historyRequest (uid : Int) (id limit : String) : Request :=
  { ctxUserID := some uid
    urlParam := fun name => if name = "id" then id else ""
    query := fun name => if name = "limit" then limit else ""
    body := "" }

/-- The store of the scenario with three messages in conversation 5 and one in
conversation 6. -/
def historyDB : DB :=
  { scenarioDB with
    conversations := [⟨5, some 1, some 2⟩, ⟨6, some 1, some 3⟩]
    messages :=
      [⟨40, 5, 1, "student", "one", 900⟩, ⟨41, 6, 1, "student", "other", 950⟩,
       ⟨42, 5, 2, "mentor", "two", 1000⟩, ⟨43, 5, 1, "student", "three", 1100⟩]
    global_messages := [⟨7, 1, "hello", 800⟩, ⟨8, 9, "all", 850⟩]
    users := [⟨1, some "Ada", some "Lovelace"⟩] }

/-- A service over `historyDB` with an empty hub. -/
def historyService : Service :=
  { db := historyDB, hub := NewHub }

/-- The request of identity `uid` to open a socket on the conversation named by
the query parameter `conversationId`. -/
def socketRequest (uid : Int) (conversationId : String) : Request :=
  { ctxUserID := some uid
    urlParam := fun _ => ""
    query := fun name => if name = "conversationId" then conversationId else ""
    body := "" }

/-- A run in which the upgrade yields connection 9, which delivers two frames
and then fails to read. -/
def socketEnv : Env :=
  { scenarioEnv with
    Upgrade := .ok 9
    reads := [.ok ⟨1, "ping"⟩, .ok ⟨1, "hi"⟩, .error "unexpected EOF"] }

/-- The store of the scenario with an active mentorship of student 1 with
mentor 2 and an ended one of student 1 with mentor 3. -/
def mentorshipDB : DB :=
  { scenarioDB with mentorships := [⟨1, 2, "active"⟩, ⟨1, 3, "ended"⟩] }

/-- A service over `mentorshipDB` with an empty hub. -/
def mentorshipService : Service :=
  { db := mentorshipDB, hub := NewHub }

/-- A run in which the request body names mentor `mentorID`. -/
def ensureEnv (mentorID : Int) : Env :=
  { scenarioEnv with DecodeEnsure := fun _ => some (some mentorID, none) }

/-- The store of the scenario where identity 4 holds the role `seeker` only. -/
def seekerDB : DB :=
  { scenarioDB with user_roles := [⟨4, "seeker"⟩] }

/-- A service over `seekerDB` with an empty hub. -/
def seekerService : Service :=
  { db := seekerDB, hub := NewHub }

/-- A request body that decodes to the same text `hi` as `scenarioBody`, and
holds an id, an author, an author type and a time beside it. -/
def spoofBody : String :=
  "\x7b\"body\":\"hi\",\"id\":7,\"authorId\":2,\"authorType\":\"mentor\",\"createdAt\":\"2000-01-01T00:00:00Z\"\x7d"

/-- The run of `scenarioEnv` with a decoder that reads both bodies. -/
def spoofEnv : Env :=
  { scenarioEnv with
    DecodeJSON := fun raw => if raw = scenarioBody ∨ raw = spoofBody then some "hi" else none }

/-- The store with mentorships, without a conversation yet. -/
def firstContactService : Service :=
  { db := { mentorshipDB with conversations := [] }, hub := NewHub }

/-- Three requests for the conversation of student 1 with mentor 2: by the
student, by the mentor, and by the student again; the store would assign the
ids 42, 43 and 44. -/
def firstContactCalls : List (Env × Request) :=
  [({ scenarioEnv with DecodeEnsure := fun _ => some (some 2, none) }, scenarioRequest 1),
   ({ scenarioEnv with nextID := 43, DecodeEnsure := fun _ => some (none, some 1) },
     scenarioRequest 2),
   ({ scenarioEnv with nextID := 44, DecodeEnsure := fun _ => some (some 2, none) },
     scenarioRequest 1)]

/-- A store in which conversation 5 holds three messages of one instant, with
the ids 1, 2 and 3. -/
def sameInstantDB : DB :=
  { scenarioDB with
    messages :=
      [⟨1, 5, 1, "student", "a", 1000⟩, ⟨2, 5, 2, "mentor", "b", 1000⟩,
       ⟨3, 5, 1, "student", "c", 1000⟩] }

/-- A service over `sameInstantDB` with an empty hub. -/
def sameInstantService : Service :=
  { db := sameInstantDB, hub := NewHub }

/-! ## Properties of a run, as the theorems state them -/

/-- The session of connection `c` in `room`, opened on service `s`, has ended
in outcome `o` after reading `frames`: the handler has returned; it upgraded,
joined `room`, read the frames, left `room` and only then closed `c`; `c` is
no member of `room`; it is a member of no room at all when it was in none
before the session; and the key `room` is gone when the room had no other
member. -/
def SessionEnded (s : Service) (room : String) (c : Conn) (frames : List Frame)
    (o : WSOutcome) : Prop :=
  o.returned = true ∧
  o.events = [.upgrade c, .join room c] ++ frames.map .read ++ [.leave room c, .close c] ∧
  o.svc.hub = (s.hub.Join room c).Leave room c ∧
  c ∉ o.svc.hub.members room ∧
  ((∀ other, c ∉ s.hub.members other) → ∀ other, c ∉ o.svc.hub.members other) ∧
  ((s.hub.members room).erase c = ∅ → o.svc.hub.rooms room = none)

/-- The outcome `o` of `EnsureConversation` on service `s`, for student `sid`
and mentor `mid`, depends on the mentorship: when the store holds no active
mentorship of `sid` with `mid`, `o` is the answer 403 with the store as it was;
when `o` is an answer 200 there is such a mentorship, and the answer carries
the id of a conversation of `sid` with `mid` that the store holds afterwards;
and the store has changed only when there is such a mentorship. -/
def RespectsMentorship (s : Service) (sid mid : Int) (o : Outcome) : Prop :=
  (⟨sid, mid, "active"⟩ ∉ s.db.mentorships →
    o.resp = httpError "no active mentorship" 403 ∧ o.svc.db = s.db) ∧
  (o.resp.status = 200 →
    ⟨sid, mid, "active"⟩ ∈ s.db.mentorships ∧
    ∃ convID, o.resp = JSON 200 [("conversationId", .int convID)] ∧
      ⟨convID, some sid, some mid⟩ ∈ o.svc.db.conversations) ∧
  (o.svc.db ≠ s.db → ⟨sid, mid, "active"⟩ ∈ s.db.mentorships)

/-- The session of connection `c` in `room`, opened on service `s`, has read
`frames` and done nothing with them: in outcome `o` the store is as before, the
handler did nothing between the `Join` and the reads, nor between the reads
and, when the session is `closed`, the `Leave`; and the hub differs from the
one before only by that `Join` and that `Leave`. -/
def FramesDropped (s : Service) (room : String) (c : Conn) (frames : List Frame)
    (closed : Bool) (o : WSOutcome) : Prop :=
  o.returned = closed ∧
  o.svc.db = s.db ∧
  o.events = [.upgrade c, .join room c] ++ frames.map .read
    ++ (if closed then [.leave room c, .close c] else []) ∧
  o.svc.hub = if closed then (s.hub.Join room c).Leave room c else s.hub.Join room c

/-- The request `r`, decoded as in `env`, asks for the conversation of student
`sid` with mentor `mid`: the student asks and names the mentor, or the mentor
asks and names the student alone. -/
def AsksForPair (sid mid : Int) (env : Env) (r : Request) : Prop :=
  (UserID r = sid ∧ ∃ studentID, env.DecodeEnsure r.body = some (some mid, studentID)) ∨
  (UserID r = mid ∧ env.DecodeEnsure r.body = some (none, some sid))

/-! ## The words of the spec, for comparison with the code -/

/-- The page size as the spec words it: the requested integer when it lies
within 1 and 200, and 50 in every other case, a missing parameter and one that
is not an integer included. -/
def specPageSize (requested : Option Int) : Int :=
  match requested with
  | some n => if 1 ≤ n ∧ n ≤ 200 then n else 50
  | none => 50

/-- What a call holds of the mutex `h.mu`. -/
inductive LockState where
  | free
  | exclusive
  | shared
deriving DecidableEq, Repr

/-- The lock discipline as the spec words it, for one step of a call: `Lock`
and `RLock` take the free mutex, `Unlock` and `RUnlock` give back what was
taken; a write of the mapping needs the exclusive lock, a read the exclusive
or the shared lock, and a send needs that the call holds no lock. `none` when
the step breaks the discipline. -/
def specLockStep : LockState → HubAction → Option LockState
  | .free, .lock => some .exclusive
  | .exclusive, .unlock => some .free
  | .free, .rlock => some .shared
  | .shared, .runlock => some .free
  | .exclusive, .write _ => some .exclusive
  | .exclusive, .read _ => some .exclusive
  | .shared, .read _ => some .shared
  | .free, .send _ => some .free
  | _, _ => none

/-- The lock state after the steps of a call; `none` when a step breaks the
discipline. -/
def specLockRun (st : LockState) (actions : List HubAction) : Option LockState :=
  actions.foldlM specLockStep st

/-! ## Theorems -/

/-! ## The definitions on concrete inputs -/

theorem ParseInt64_examples :
    ParseInt64 "5" = some 5 ∧ ParseInt64 "+7" = some 7 ∧ ParseInt64 "007" = some 7 ∧
    ParseInt64 "-9223372036854775808" = some (-9223372036854775808) ∧
    ParseInt64 "9223372036854775808" = none ∧ ParseInt64 "" = none ∧
    ParseInt64 "-" = none ∧ ParseInt64 "1_0" = none ∧ ParseInt64 " 1" = none ∧
    ParseInt64 "abc" = none := by
  decide

theorem FormatInt_examples :
    FormatInt 0 = "0" ∧ FormatInt 5 = "5" ∧ FormatInt 1234567 = "1234567" ∧
    FormatInt (-10) = "-10" ∧ roomName 5 = "conv:5" := by
  decide

theorem Broadcast_example :
    (((NewHub.Join "global" 2).Join "global" 1).Broadcast RangeOrder.ascending
      (fun c => decide (c = 1)) "global" [("type", .str "message")]).sends
      = [⟨1, [("type", .str "message")], true⟩, ⟨2, [("type", .str "message")], false⟩] := by
  decide

theorem PostMessage_example :
    (scenarioService.PostMessage scenarioEnv (scenarioRequest 1)).resp
      = JSON 200
          [("type", .str "message"), ("conversationId", .int 5), ("id", .int 42),
           ("authorId", .int 1), ("authorType", .str "student"), ("body", .str "hi"),
           ("createdAt", .time 1003)] ∧
    (scenarioService.PostMessage scenarioEnv (scenarioRequest 1)).broadcasts
      = [("conv:5",
          [("type", .str "message"), ("conversationId", .int 5), ("id", .int 42),
           ("authorId", .int 1), ("authorType", .str "student"), ("body", .str "hi"),
           ("createdAt", .time 1003)])] ∧
    (scenarioService.PostMessage scenarioEnv (scenarioRequest 1)).sends
      = [⟨7, [("type", .str "message"), ("conversationId", .int 5), ("id", .int 42),
             ("authorId", .int 1), ("authorType", .str "student"), ("body", .str "hi"),
             ("createdAt", .time 1003)], false⟩] ∧
    (scenarioService.PostMessage scenarioEnv (scenarioRequest 2)).resp.status = 200 ∧
    (scenarioService.PostMessage scenarioEnv (scenarioRequest 3)).resp.status = 403 := by
  decide

theorem GlobalPost_example :
    (scenarioService.GlobalPost scenarioEnv (scenarioRequest 1)).resp
      = JSON 200
          [("type", .str "message"), ("scope", .str "global"), ("id", .int 42),
           ("authorId", .int 1), ("body", .str "hi"), ("createdAt", .time 1003)] ∧
    (scenarioService.GlobalPost scenarioEnv (scenarioRequest 1)).sends.map Send.conn = [8] ∧
    (scenarioService.GlobalPost scenarioEnv (scenarioRequest 3)).resp
      = httpError "forbidden" 403 := by
  decide

/-! ## Lemmas about the hub -/

theorem Hub.Join_rooms (h : Hub) (r : String) (c : Conn) :
    (h.Join r c).rooms = Function.update h.rooms r (some (insert c (h.members r))) := by
  unfold Hub.Join Hub.members
  cases hr : h.rooms r <;> simp [hr]

theorem Hub.Leave_rooms (h : Hub) (r : String) (c : Conn) :
    (h.Leave r c).rooms =
      if (h.members r).erase c = ∅ then Function.update h.rooms r none
      else Function.update h.rooms r (some ((h.members r).erase c)) := by
  unfold Hub.Leave Hub.members
  cases hr : h.rooms r with
  | none =>
    simp only [Option.getD_none, Finset.erase_empty, if_true]
    funext x
    by_cases hx : x = r
    · subst hx; simp [hr]
    · simp [hx]
  | some m =>
    simp only [Option.getD_some, Finset.card_eq_zero]
    split <;> simp

theorem Hub.Broadcast_sends (it : RangeOrder) (fails : Conn → Bool) (h : Hub) (r : String)
    (p : Payload) :
    (h.Broadcast it fails r p).sends =
      (it.keys (h.members r)).map fun c => ⟨c, p, fails c⟩ := by
  have snoc : ∀ (f : Conn → Send) (l : List Conn) (acc : List Send),
      l.foldl (fun sends c => sends ++ [f c]) acc = acc ++ l.map f := by
    intro f l
    induction l with
    | nil => intro acc; simp
    | cons a l ih => intro acc; simp [ih]
  have copy : ∀ (l acc : List Conn), l.foldl (fun conns c => conns ++ [c]) acc = acc ++ l := by
    intro l
    induction l with
    | nil => intro acc; simp
    | cons a l ih => intro acc; simp [ih]
  simp [Hub.Broadcast, snoc, copy]

theorem Hub.Broadcast_hub (it : RangeOrder) (fails : Conn → Bool) (h : Hub) (r : String)
    (p : Payload) : (h.Broadcast it fails r p).hub = h := rfl

theorem Hub.NoEmptyRoom_Join (h : Hub) (r : String) (c : Conn) (hinv : h.NoEmptyRoom) :
    (h.Join r c).NoEmptyRoom := by
  intro x
  rw [Hub.Join_rooms]
  by_cases hx : x = r
  · subst hx
    simp
  · simpa [hx] using hinv x

theorem Hub.NoEmptyRoom_Leave (h : Hub) (r : String) (c : Conn) (hinv : h.NoEmptyRoom) :
    (h.Leave r c).NoEmptyRoom := by
  intro x
  rw [Hub.Leave_rooms]
  by_cases hx : x = r
  · subst hx
    split
    · simp
    · rename_i hne
      simpa using fun heq => hne heq
  · split <;> simpa [hx] using hinv x

theorem Hub.NoEmptyRoom_step (h : Hub) (call : HubCall) (hinv : h.NoEmptyRoom) :
    (h.step call).NoEmptyRoom := by
  cases call with
  | join r c => exact Hub.NoEmptyRoom_Join h r c hinv
  | leave r c => exact Hub.NoEmptyRoom_Leave h r c hinv
  | broadcast it fails r p => exact hinv

theorem Hub.NoEmptyRoom_run (calls : List HubCall) :
    ∀ h : Hub, h.NoEmptyRoom → (h.run calls).NoEmptyRoom := by
  induction calls with
  | nil => intro h hinv; exact hinv
  | cons call calls ih =>
    intro h hinv
    exact ih (h.step call) (Hub.NoEmptyRoom_step h call hinv)

theorem NewHub_NoEmptyRoom : NewHub.NoEmptyRoom := by
  intro x
  simp [NewHub]

/-- C1: in every hub reached from `NewHub()` by a finite sequence of `Join`,
`Leave` and `Broadcast` calls, no room key maps to an empty member set. -/
theorem C1_no_empty_room_reachable (calls : List HubCall) (room : String) :
    (NewHub.run calls).rooms room ≠ some ∅ :=
  Hub.NoEmptyRoom_run calls NewHub NewHub_NoEmptyRoom room

theorem Hub.members_Join (h : Hub) (r : String) (c : Conn) :
    (h.Join r c).members r = insert c (h.members r) := by
  simp [Hub.members, Hub.Join_rooms]

theorem Hub.members_Leave (h : Hub) (r : String) (c : Conn) :
    (h.Leave r c).members r = (h.members r).erase c := by
  unfold Hub.members
  rw [Hub.Leave_rooms]
  split
  · rename_i he
    simpa [Hub.members] using he.symm
  · simp [Hub.members]

theorem Hub.Leave_other (h : Hub) (r r1 : String) (c : Conn) (hne : r1 ≠ r) :
    (h.Leave r c).rooms r1 = h.rooms r1 := by
  rw [Hub.Leave_rooms]
  split <;> simp [hne]

theorem Hub.Leave_absent (h : Hub) (r : String) (c : Conn) (hr : h.rooms r = none) :
    h.Leave r c = h := by
  simp [Hub.Leave, hr]

theorem Hub.Leave_not_member (h : Hub) (r : String) (c : Conn) (hinv : h.NoEmptyRoom)
    (hc : c ∉ h.members r) : h.Leave r c = h := by
  cases hr : h.rooms r with
  | none => exact Hub.Leave_absent h r c hr
  | some m =>
    have hm : m ≠ ∅ := fun he => hinv r (by rw [hr, he])
    have hcm : c ∉ m := by simpa [Hub.members, hr] using hc
    apply Hub.ext
    rw [Hub.Leave_rooms]
    simp only [Hub.members, hr, Option.getD_some, Finset.erase_eq_of_not_mem hcm, if_neg hm]
    rw [← hr]
    exact Function.update_eq_self r h.rooms

theorem Hub.Leave_Leave (h : Hub) (r : String) (c : Conn) :
    (h.Leave r c).Leave r c = h.Leave r c := by
  by_cases he : (h.members r).erase c = ∅
  · apply Hub.Leave_absent
    rw [Hub.Leave_rooms, if_pos he]
    simp
  · apply Hub.ext
    have hm := Hub.members_Leave h r c
    rw [Hub.Leave_rooms (h.Leave r c), hm]
    have : ((h.members r).erase c).erase c = (h.members r).erase c := by simp
    rw [this, if_neg he, Hub.Leave_rooms, if_neg he]
    simp

/-- C2: a second `Join(r, c)` leaves the hub that the first one produced; there
room `r` exists, its member set is the former one with `c` added, and a pass
over that set meets `c` exactly once. -/
theorem C2_join_idempotent (h : Hub) (r : String) (c : Conn) :
    (h.Join r c).Join r c = h.Join r c ∧
    (h.Join r c).rooms r = some (insert c (h.members r)) ∧
    (∀ it : RangeOrder, (it.keys ((h.Join r c).members r)).count c = 1) := by
  refine ⟨?_, ?_, ?_⟩
  · apply Hub.ext
    rw [Hub.Join_rooms (h.Join r c), Hub.members_Join, Hub.Join_rooms]
    simp
  · simp [Hub.Join_rooms]
  · intro it
    apply List.count_eq_one_of_mem (it.nodup _)
    rw [it.mem_keys, Hub.members_Join]
    exact Finset.mem_insert_self c _

/-- C3: when the member set of room `r` is exactly `{c}`, `Leave(r, c)` removes
the key `r`, and a `Broadcast(r, payload)` after it makes no send and returns
with the hub as it was. -/
theorem C3_last_leave_removes_room (it : RangeOrder) (fails : Conn → Bool) (h : Hub)
    (r : String) (c : Conn) (p : Payload) (hr : h.rooms r = some {c}) :
    (h.Leave r c).rooms r = none ∧
    ((h.Leave r c).Broadcast it fails r p).sends = [] ∧
    ((h.Leave r c).Broadcast it fails r p).hub = h.Leave r c := by
  have hnone : (h.Leave r c).rooms r = none := by
    rw [Hub.Leave_rooms]
    simp [Hub.members, hr]
  refine ⟨hnone, ?_, rfl⟩
  have hk : it.keys ((h.Leave r c).members r) = [] := by
    apply List.eq_nil_iff_forall_not_mem.mpr
    intro a ha
    rw [it.mem_keys] at ha
    simp [Hub.members, hnone] at ha
  rw [Hub.Broadcast_sends, hk]
  rfl

/-- C3 at the hub that one `Join("conv:5", 7)` builds. -/
theorem C3_last_leave_removes_room_witness :
    ((NewHub.Join "conv:5" 7).Leave "conv:5" 7).rooms "conv:5" = none ∧
    (((NewHub.Join "conv:5" 7).Leave "conv:5" 7).Broadcast RangeOrder.ascending
      (fun _ => true) "conv:5" [("type", .str "message")]).sends = [] ∧
    (((NewHub.Join "conv:5" 7).Leave "conv:5" 7).Broadcast RangeOrder.ascending
      (fun _ => true) "conv:5" [("type", .str "message")]).hub
      = (NewHub.Join "conv:5" 7).Leave "conv:5" 7 :=
  C3_last_leave_removes_room RangeOrder.ascending (fun _ => true) (NewHub.Join "conv:5" 7)
    "conv:5" 7 [("type", .str "message")] (by simp [Hub.Join_rooms, Hub.members, NewHub])

/-! ## Lemmas about the handlers -/

theorem PostMessage_resp_fails (env : Env) (f g : Conn → Bool) (s : Service) (r : Request) :
    (s.PostMessage { env with fails := f } r).resp
      = (s.PostMessage { env with fails := g } r).resp := by
  simp only [Service.PostMessage, Service.getConversation, insertMessage]
  repeat' split
  all_goals rfl

theorem GlobalPost_resp_fails (env : Env) (f g : Conn → Bool) (s : Service) (r : Request) :
    (s.GlobalPost { env with fails := f } r).resp
      = (s.GlobalPost { env with fails := g } r).resp := by
  simp only [Service.GlobalPost, hasChatRole, insertGlobalMessage]
  repeat' split
  all_goals rfl

theorem PostMessage_hub (env : Env) (s : Service) (r : Request) :
    (s.PostMessage env r).svc.hub = s.hub := by
  simp only [Service.PostMessage]
  repeat' split
  all_goals rfl

theorem GlobalPost_hub (env : Env) (s : Service) (r : Request) :
    (s.GlobalPost env r).svc.hub = s.hub := by
  simp only [Service.GlobalPost]
  repeat' split
  all_goals rfl

/-- C4: `Broadcast(r, p)` sends to the connections of `r`'s member set as the
range loop yields them, whichever sends fail: one send of `p` to each member,
none to a connection outside the set, each failure only recorded; and the
response of the two handlers that call it does not depend on which sends
fail. -/
theorem C4_broadcast_sends_once_to_each_member (it : RangeOrder) (fails : Conn → Bool)
    (h : Hub) (r : String) (p : Payload) :
    (h.Broadcast it fails r p).sends.map Send.conn = it.keys (h.members r) ∧
    (∀ c, ((h.Broadcast it fails r p).sends.map Send.conn).count c
        = if c ∈ h.members r then 1 else 0) ∧
    (∀ x ∈ (h.Broadcast it fails r p).sends, x.payload = p ∧ x.failed = fails x.conn) ∧
    (∀ (env : Env) (s : Service) (req : Request),
      (s.PostMessage { env with fails := fails } req).resp
        = (s.PostMessage { env with fails := fun _ => false } req).resp ∧
      (s.GlobalPost { env with fails := fails } req).resp
        = (s.GlobalPost { env with fails := fun _ => false } req).resp) := by
  have hconn : (h.Broadcast it fails r p).sends.map Send.conn = it.keys (h.members r) := by
    rw [Hub.Broadcast_sends, List.map_map]
    exact List.map_id _
  refine ⟨hconn, ?_, ?_, ?_⟩
  · intro c
    rw [hconn]
    split
    · rename_i hc
      exact List.count_eq_one_of_mem (it.nodup _) ((it.mem_keys _ _).mpr hc)
    · rename_i hc
      exact List.count_eq_zero_of_not_mem (fun hm => hc ((it.mem_keys _ _).mp hm))
  · intro x hx
    rw [Hub.Broadcast_sends, List.mem_map] at hx
    obtain ⟨c, -, rfl⟩ := hx
    exact ⟨rfl, rfl⟩
  · intro env s req
    exact ⟨PostMessage_resp_fails env _ _ s req, GlobalPost_resp_fails env _ _ s req⟩

/-- C5: `Broadcast` leaves the room-to-members mapping as it was, whichever
sends fail: every key reads as before, whether present or absent; so does a
run of `PostMessage` or `GlobalPost`, which reaches the hub only through
`Broadcast`. -/
theorem C5_broadcast_keeps_registry (it : RangeOrder) (fails : Conn → Bool) (h : Hub)
    (r : String) (p : Payload) :
    (h.Broadcast it fails r p).hub = h ∧
    (∀ room, (h.Broadcast it fails r p).hub.rooms room = h.rooms room) ∧
    h.step (.broadcast it fails r p) = h ∧
    (∀ (env : Env) (s : Service) (req : Request),
      (s.PostMessage env req).svc.hub = s.hub ∧ (s.GlobalPost env req).svc.hub = s.hub) :=
  ⟨rfl, fun _ => rfl, rfl, fun env s req => ⟨PostMessage_hub env s req, GlobalPost_hub env s req⟩⟩

/-- C6: `Leave(r, c)` removes `c` from `r`'s member set and nothing else: the
other members of `r` and every other room stay, and a second `Leave(r, c)`
changes nothing; in a hub reached from `NewHub()`, `Leave(r, c)` with `c` not a
member of `r`, or `r` absent, leaves the hub as it was. -/
theorem C6_leave_removes_only_its_target (r : String) (c : Conn) :
    (∀ h : Hub, (h.Leave r c).members r = (h.members r).erase c) ∧
    (∀ h : Hub, ∀ room, room ≠ r → (h.Leave r c).rooms room = h.rooms room) ∧
    (∀ h : Hub, h.rooms r = none → h.Leave r c = h) ∧
    (∀ calls : List HubCall, c ∉ (NewHub.run calls).members r →
      (NewHub.run calls).Leave r c = NewHub.run calls) ∧
    (∀ h : Hub, (h.Leave r c).Leave r c = h.Leave r c) :=
  ⟨fun h => Hub.members_Leave h r c,
   fun h room hne => Hub.Leave_other h r room c hne,
   fun h hr => Hub.Leave_absent h r c hr,
   fun calls hc =>
     Hub.Leave_not_member _ r c (Hub.NoEmptyRoom_run calls NewHub NewHub_NoEmptyRoom) hc,
   fun h => Hub.Leave_Leave h r c⟩

/-- C6 at the hub that one `Join("global", 1)` builds: connection 2 is not a
member of `global`, and `Leave("global", 2)` changes nothing. -/
theorem C6_leave_removes_only_its_target_witness :
    (2 : Conn) ∉ (NewHub.run [.join "global" 1]).members "global" ∧
    (NewHub.run [.join "global" 1]).Leave "global" 2 = NewHub.run [.join "global" 1] ∧
    ((NewHub.run [.join "global" 1]).Leave "global" 1).rooms "conv:5"
      = (NewHub.run [.join "global" 1]).rooms "conv:5" :=
  ⟨by decide,
    (C6_leave_removes_only_its_target "global" 2).2.2.2.1 [.join "global" 1] (by decide),
    (C6_leave_removes_only_its_target "global" 1).2.1 _ "conv:5" (by decide)⟩

theorem getConversation_ID (env : Env) (n : Nat) (s : Service) (id : Int) (conv : conversation)
    (h : s.getConversation env n id = some conv) : conv.ID = id := by
  unfold Service.getConversation at h
  split at h
  · simp at h
  · split at h
    · rename_i hf
      have := List.find?_some hf
      simp at h this
      rw [← h]
      exact this
    · simp at h

/-- The payload `PostMessage` builds after a successful insert. -/
theorem PostMessage_ok (env : Env) (s : Service) (r : Request) (convID : Int)
    (conv : conversation) (atype body : String)
    (hid : ParamInt64 r "id" = some convID)
    (hconv : s.getConversation env 0 convID = some conv)
    (hat : (if UserID r = conv.StudentID then some "student"
            else if UserID r = conv.MentorID then some "mentor" else none) = some atype)
    (hdec : env.DecodeJSON r.body = some body) (hne : body ≠ "")
    (hq : env.queryErr 1 = none) :
    s.PostMessage env r =
      { resp := JSON 200
          [("type", .str "message"), ("conversationId", .int convID), ("id", .int env.nextID),
           ("authorId", .int (UserID r)), ("authorType", .str atype), ("body", .str body),
           ("createdAt", .time env.now)]
        svc :=
          { db := { s.db with messages :=
                      s.db.messages ++ [⟨env.nextID, convID, UserID r, atype, body, env.dbNow⟩] }
            hub := s.hub }
        broadcasts :=
          [(roomName convID,
            [("type", .str "message"), ("conversationId", .int convID), ("id", .int env.nextID),
             ("authorId", .int (UserID r)), ("authorType", .str atype), ("body", .str body),
             ("createdAt", .time env.now)])]
        sends :=
          (env.it.keys (s.hub.members (roomName convID))).map fun c =>
            ⟨c, [("type", .str "message"), ("conversationId", .int convID),
                 ("id", .int env.nextID), ("authorId", .int (UserID r)),
                 ("authorType", .str atype), ("body", .str body),
                 ("createdAt", .time env.now)], env.fails c⟩ } := by
  simp only [Service.PostMessage, hid, hconv, hat, hdec, hne, insertMessage, hq, if_false,
    Hub.Broadcast_sends, Hub.Broadcast_hub]

/-- A run of `PostMessage` that answers 200 passed every check and the insert. -/
theorem PostMessage_200 (env : Env) (s : Service) (r : Request)
    (hok : (s.PostMessage env r).resp.status = 200) :
    ∃ convID conv atype body,
      ParamInt64 r "id" = some convID ∧ s.getConversation env 0 convID = some conv ∧
      (if UserID r = conv.StudentID then some "student"
        else if UserID r = conv.MentorID then some "mentor" else none) = some atype ∧
      env.DecodeJSON r.body = some body ∧ body ≠ "" ∧ env.queryErr 1 = none := by
  cases hid : ParamInt64 r "id" with
  | none => simp [Service.PostMessage, hid, Outcome.halt, httpError] at hok
  | some convID =>
    cases hconv : s.getConversation env 0 convID with
    | none => simp [Service.PostMessage, hid, hconv, Outcome.halt, httpError] at hok
    | some conv =>
      cases hat : (if UserID r = conv.StudentID then some "student"
            else if UserID r = conv.MentorID then some "mentor" else none) with
      | none => simp [Service.PostMessage, hid, hconv, hat, Outcome.halt, httpError] at hok
      | some atype =>
        cases hdec : env.DecodeJSON r.body with
        | none =>
          simp [Service.PostMessage, hid, hconv, hat, hdec, Outcome.halt, httpError] at hok
        | some body =>
          by_cases hne : body = ""
          · simp [Service.PostMessage, hid, hconv, hat, hdec, hne, Outcome.halt, httpError] at hok
          · cases hq : env.queryErr 1 with
            | some e =>
              simp [Service.PostMessage, hid, hconv, hat, hdec, hne, insertMessage, hq,
                Outcome.halt, httpError] at hok
            | none =>
              refine ⟨convID, conv, atype, body, ?_, ?_, ?_, ?_, hne, ?_⟩ <;>
                first | rfl | assumption

/-- The payload `GlobalPost` builds after a successful insert. -/
theorem GlobalPost_ok (env : Env) (s : Service) (r : Request) (body : String)
    (hrole : hasChatRole env 0 s.db (UserID r) = some true)
    (hdec : env.DecodeJSON r.body = some body) (hne : body ≠ "")
    (hq : env.queryErr 1 = none) :
    s.GlobalPost env r =
      { resp := JSON 200
          [("type", .str "message"), ("scope", .str "global"), ("id", .int env.nextID),
           ("authorId", .int (UserID r)), ("body", .str body), ("createdAt", .time env.now)]
        svc :=
          { db := { s.db with global_messages :=
                      s.db.global_messages ++ [⟨env.nextID, UserID r, body, env.dbNow⟩] }
            hub := s.hub }
        broadcasts :=
          [("global",
            [("type", .str "message"), ("scope", .str "global"), ("id", .int env.nextID),
             ("authorId", .int (UserID r)), ("body", .str body), ("createdAt", .time env.now)])]
        sends :=
          (env.it.keys (s.hub.members "global")).map fun c =>
            ⟨c, [("type", .str "message"), ("scope", .str "global"), ("id", .int env.nextID),
                 ("authorId", .int (UserID r)), ("body", .str body),
                 ("createdAt", .time env.now)], env.fails c⟩ } := by
  simp only [Service.GlobalPost, hrole, hdec, hne, insertGlobalMessage, hq, if_false,
    Hub.Broadcast_sends, Hub.Broadcast_hub]

/-- A run of `GlobalPost` that answers 200 passed every check and the insert. -/
theorem GlobalPost_200 (env : Env) (s : Service) (r : Request)
    (hok : (s.GlobalPost env r).resp.status = 200) :
    ∃ body,
      hasChatRole env 0 s.db (UserID r) = some true ∧
      env.DecodeJSON r.body = some body ∧ body ≠ "" ∧ env.queryErr 1 = none := by
  cases hrole : hasChatRole env 0 s.db (UserID r) with
  | none => simp [Service.GlobalPost, hrole, Outcome.halt, httpError] at hok
  | some ok =>
    cases ok with
    | false => simp [Service.GlobalPost, hrole, Outcome.halt, httpError] at hok
    | true =>
      cases hdec : env.DecodeJSON r.body with
      | none => simp [Service.GlobalPost, hrole, hdec, Outcome.halt, httpError] at hok
      | some body =>
        by_cases hne : body = ""
        · simp [Service.GlobalPost, hrole, hdec, hne, Outcome.halt, httpError] at hok
        · cases hq : env.queryErr 1 with
          | some e =>
            simp [Service.GlobalPost, hrole, hdec, hne, insertGlobalMessage, hq,
              Outcome.halt, httpError] at hok
          | none => exact ⟨body, rfl, rfl, hne, rfl⟩

/-- When statement 1 of the run fails, `PostMessage` ends on an early return. -/
theorem PostMessage_insert_fails (env : Env) (s : Service) (r : Request) (e : String)
    (hq : env.queryErr 1 = some e) :
    ∃ resp, s.PostMessage env r = Outcome.halt s resp ∧ resp.status ≠ 200 := by
  simp only [Service.PostMessage, insertMessage, hq]
  repeat' split
  all_goals exact ⟨_, rfl, by simp [httpError]⟩

/-- When statement 1 of the run fails, `GlobalPost` ends on an early return. -/
theorem GlobalPost_insert_fails (env : Env) (s : Service) (r : Request) (e : String)
    (hq : env.queryErr 1 = some e) :
    ∃ resp, s.GlobalPost env r = Outcome.halt s resp ∧ resp.status ≠ 200 := by
  simp only [Service.GlobalPost, insertGlobalMessage, hq]
  repeat' split
  all_goals exact ⟨_, rfl, by simp [httpError]⟩

/-! ## The posting handlers -/

/-- C7: when conversation `conv` is found and the caller is neither its
student nor its mentor, `PostMessage` answers 403 `forbidden`, whatever the
request body is and however it decodes: the store is as before, no call to
`Broadcast` is made and nothing is sent. -/
theorem C7_post_by_non_participant_is_forbidden (env : Env) (s : Service) (r : Request)
    (convID : Int) (conv : conversation)
    (hid : ParamInt64 r "id" = some convID)
    (hconv : s.getConversation env 0 convID = some conv)
    (hstudent : UserID r ≠ conv.StudentID) (hmentor : UserID r ≠ conv.MentorID) :
    (s.PostMessage env r).resp = httpError "forbidden" 403 ∧
    (s.PostMessage env r).resp.status = 403 ∧
    (s.PostMessage env r).svc.db = s.db ∧
    (s.PostMessage env r).svc.hub = s.hub ∧
    (s.PostMessage env r).broadcasts = [] ∧
    (s.PostMessage env r).sends = [] := by
  have h : s.PostMessage env r = Outcome.halt s (httpError "forbidden" 403) := by
    simp only [Service.PostMessage, hid, hconv, if_neg hstudent, if_neg hmentor]
  rw [h]
  exact ⟨rfl, rfl, rfl, rfl, rfl, rfl⟩

/-- C7 in the scenario: identity 3 posts to conversation 5 of identities 1 and 2. -/
theorem C7_post_by_non_participant_is_forbidden_witness :
    (scenarioService.PostMessage scenarioEnv (scenarioRequest 3)).resp
      = httpError "forbidden" 403 ∧
    (scenarioService.PostMessage scenarioEnv (scenarioRequest 3)).resp.status = 403 ∧
    (scenarioService.PostMessage scenarioEnv (scenarioRequest 3)).svc.db = scenarioService.db ∧
    (scenarioService.PostMessage scenarioEnv (scenarioRequest 3)).svc.hub
      = scenarioService.hub ∧
    (scenarioService.PostMessage scenarioEnv (scenarioRequest 3)).broadcasts = [] ∧
    (scenarioService.PostMessage scenarioEnv (scenarioRequest 3)).sends = [] :=
  C7_post_by_non_participant_is_forbidden scenarioEnv scenarioService (scenarioRequest 3) 5
    ⟨5, 1, 2⟩ (by decide) (by decide) (by decide) (by decide)

/-- C8: when the insert, statement 1 of the run, comes back with error `e`,
`PostMessage` and `GlobalPost` make no call to `Broadcast`, send nothing, leave
the store as it was and do not answer 200; a run that passed the checks before
the insert answers 500 with `e`. -/
theorem C8_failed_insert_is_not_broadcast (env : Env) (s : Service) (r : Request) (e : String)
    (hq : env.queryErr 1 = some e) :
    ((s.PostMessage env r).broadcasts = [] ∧ (s.PostMessage env r).sends = [] ∧
      (s.PostMessage env r).svc.db = s.db ∧ (s.PostMessage env r).resp.status ≠ 200) ∧
    (∀ convID conv body, ParamInt64 r "id" = some convID →
      s.getConversation env 0 convID = some conv →
      (UserID r = conv.StudentID ∨ UserID r = conv.MentorID) →
      env.DecodeJSON r.body = some body → body ≠ "" →
      (s.PostMessage env r).resp = httpError e 500) ∧
    ((s.GlobalPost env r).broadcasts = [] ∧ (s.GlobalPost env r).sends = [] ∧
      (s.GlobalPost env r).svc.db = s.db ∧ (s.GlobalPost env r).resp.status ≠ 200) ∧
    (∀ body, hasChatRole env 0 s.db (UserID r) = some true →
      env.DecodeJSON r.body = some body → body ≠ "" →
      (s.GlobalPost env r).resp = httpError e 500) := by
  refine ⟨?_, ?_, ?_, ?_⟩
  · obtain ⟨resp, h, hne⟩ := PostMessage_insert_fails env s r e hq
    rw [h]
    exact ⟨rfl, rfl, rfl, hne⟩
  · intro convID conv body hid hconv hpart hdec hne
    rcases hpart with hp | hp
    · simp [Service.PostMessage, hid, hconv, hp, hdec, hne, insertMessage, hq, Outcome.halt]
    · by_cases hs : UserID r = conv.StudentID
      · simp [Service.PostMessage, hid, hconv, hs, hdec, hne, insertMessage, hq, Outcome.halt]
      · simp only [Service.PostMessage, hid, hconv, if_neg hs, if_pos hp, hdec, hne,
          insertMessage, hq, if_false, Outcome.halt]
  · obtain ⟨resp, h, hne⟩ := GlobalPost_insert_fails env s r e hq
    rw [h]
    exact ⟨rfl, rfl, rfl, hne⟩
  · intro body hrole hdec hne
    simp [Service.GlobalPost, hrole, hdec, hne, insertGlobalMessage, hq, Outcome.halt]

/-- C8 in the scenario, with the insert failing: identity 1 posts `hi` to
conversation 5 and to the global room. -/
theorem C8_failed_insert_is_not_broadcast_witness :
    scenarioEnvInsertFails.queryErr 1 = some "connection reset" ∧
    (scenarioService.PostMessage scenarioEnvInsertFails (scenarioRequest 1)).broadcasts = [] ∧
    (scenarioService.PostMessage scenarioEnvInsertFails (scenarioRequest 1)).resp
      = httpError "connection reset" 500 ∧
    (scenarioService.GlobalPost scenarioEnvInsertFails (scenarioRequest 1)).broadcasts = [] ∧
    (scenarioService.GlobalPost scenarioEnvInsertFails (scenarioRequest 1)).resp
      = httpError "connection reset" 500 :=
  have h := C8_failed_insert_is_not_broadcast scenarioEnvInsertFails scenarioService
    (scenarioRequest 1) "connection reset" (by decide)
  ⟨by decide, h.1.1,
    h.2.1 5 ⟨5, 1, 2⟩ "hi" (by decide) (by decide) (by decide) (by decide) (by decide),
    h.2.2.1.1, h.2.2.2 "hi" (by decide) (by decide) (by decide)⟩

/-- C9 as stated fails in the scenario: identity 1 posts `hi` to conversation 5
and gets 200; the store commits the row with id 42 and `created_at` 1000, and
the payload carries id 42 but `createdAt` 1003, the reading of the handler's
clock. -/
theorem C9_payload_createdAt_is_not_the_row_created_at :
    (scenarioService.PostMessage scenarioEnv (scenarioRequest 1)).resp.status = 200 ∧
    (scenarioService.PostMessage scenarioEnv (scenarioRequest 1)).svc.db.messages
      = [⟨42, 5, 1, "student", "hi", 1000⟩] ∧
    (scenarioService.PostMessage scenarioEnv (scenarioRequest 1)).resp
      = JSON 200
          [("type", .str "message"), ("conversationId", .int 5), ("id", .int 42),
           ("authorId", .int 1), ("authorType", .str "student"), ("body", .str "hi"),
           ("createdAt", .time 1003)] ∧
    ¬ (∃ row payload,
        (scenarioService.PostMessage scenarioEnv (scenarioRequest 1)).svc.db.messages
          = scenarioService.db.messages ++ [row] ∧
        (scenarioService.PostMessage scenarioEnv (scenarioRequest 1)).resp = JSON 200 payload ∧
        payload.get "id" = some (.int row.id) ∧
        payload.get "createdAt" = some (.time row.created_at)) := by
  refine ⟨by decide, by decide, by decide, ?_⟩
  rintro ⟨row, payload, hrow, hresp, -, hcreated⟩
  have h1 : (scenarioService.PostMessage scenarioEnv (scenarioRequest 1)).svc.db.messages
      = [⟨42, 5, 1, "student", "hi", 1000⟩] := by decide
  have h2 : (scenarioService.PostMessage scenarioEnv (scenarioRequest 1)).resp
      = JSON 200
          [("type", .str "message"), ("conversationId", .int 5), ("id", .int 42),
           ("authorId", .int 1), ("authorType", .str "student"), ("body", .str "hi"),
           ("createdAt", .time 1003)] := by decide
  rw [h1] at hrow
  rw [h2] at hresp
  have hr : row = ⟨42, 5, 1, "student", "hi", 1000⟩ := by
    simpa [scenarioService, scenarioDB] using hrow.symm
  have hp : payload = [("type", .str "message"), ("conversationId", .int 5), ("id", .int 42),
           ("authorId", .int 1), ("authorType", .str "student"), ("body", .str "hi"),
           ("createdAt", .time 1003)] := by
    simpa [JSON] using hresp.symm
  subst hr hp
  revert hcreated
  decide

/-- C9, amended: in every run of `PostMessage` or `GlobalPost` that answers
200, the store has committed one new row, the payload of the response is the
one broadcast, its `id` is the id the store gave that row, and its `createdAt`
is the reading of the handler's clock, while the row's `created_at` is the one
the store assigned. -/
theorem C9_payload_id_is_row_id_createdAt_is_handler_clock (env : Env) (s : Service)
    (r : Request) :
    ((s.PostMessage env r).resp.status = 200 →
      ∃ row payload,
        (s.PostMessage env r).svc.db.messages = s.db.messages ++ [row] ∧
        (s.PostMessage env r).resp = JSON 200 payload ∧
        (s.PostMessage env r).broadcasts.map Prod.snd = [payload] ∧
        row.id = env.nextID ∧ row.created_at = env.dbNow ∧
        payload.get "id" = some (.int row.id) ∧
        payload.get "createdAt" = some (.time env.now)) ∧
    ((s.GlobalPost env r).resp.status = 200 →
      ∃ row payload,
        (s.GlobalPost env r).svc.db.global_messages = s.db.global_messages ++ [row] ∧
        (s.GlobalPost env r).resp = JSON 200 payload ∧
        (s.GlobalPost env r).broadcasts.map Prod.snd = [payload] ∧
        row.id = env.nextID ∧ row.created_at = env.dbNow ∧
        payload.get "id" = some (.int row.id) ∧
        payload.get "createdAt" = some (.time env.now)) := by
  constructor
  · intro hok
    obtain ⟨convID, conv, atype, body, hid, hconv, hat, hdec, hne, hq⟩ :=
      PostMessage_200 env s r hok
    rw [PostMessage_ok env s r convID conv atype body hid hconv hat hdec hne hq]
    exact ⟨_, _, rfl, rfl, rfl, rfl, rfl, by simp [Payload.get], by simp [Payload.get]⟩
  · intro hok
    obtain ⟨body, hrole, hdec, hne, hq⟩ := GlobalPost_200 env s r hok
    rw [GlobalPost_ok env s r body hrole hdec hne hq]
    exact ⟨_, _, rfl, rfl, rfl, rfl, rfl, by simp [Payload.get], by simp [Payload.get]⟩

/-- C9, amended, in the scenario: identity 1 posts `hi` to conversation 5. -/
theorem C9_payload_id_is_row_id_createdAt_is_handler_clock_witness :
    (scenarioService.PostMessage scenarioEnv (scenarioRequest 1)).resp.status = 200 ∧
    ∃ row payload,
      (scenarioService.PostMessage scenarioEnv (scenarioRequest 1)).svc.db.messages
        = scenarioService.db.messages ++ [row] ∧
      (scenarioService.PostMessage scenarioEnv (scenarioRequest 1)).resp = JSON 200 payload ∧
      (scenarioService.PostMessage scenarioEnv (scenarioRequest 1)).broadcasts.map Prod.snd
        = [payload] ∧
      row.id = scenarioEnv.nextID ∧ row.created_at = scenarioEnv.dbNow ∧
      payload.get "id" = some (.int row.id) ∧
      payload.get "createdAt" = some (.time scenarioEnv.now) :=
  ⟨by decide,
    (C9_payload_id_is_row_id_createdAt_is_handler_clock scenarioEnv scenarioService
      (scenarioRequest 1)).1 (by decide)⟩

/-- C10: in every run of `PostMessage` that answers 200 the caller is the
student or the mentor of the conversation named by the request, the handler
made exactly one call to `Broadcast`, for room `conv:<id>` of that
conversation, with the payload it wrote as the response, and every send of the
run carries that payload to a member of that room; likewise for `GlobalPost`
and room `global`. -/
theorem C10_response_payload_is_the_one_broadcast (env : Env) (s : Service) (r : Request) :
    ((s.PostMessage env r).resp.status = 200 →
      ∃ convID conv payload,
        ParamInt64 r "id" = some convID ∧ s.getConversation env 0 convID = some conv ∧
        conv.ID = convID ∧ (UserID r = conv.StudentID ∨ UserID r = conv.MentorID) ∧
        (s.PostMessage env r).resp = JSON 200 payload ∧
        (s.PostMessage env r).broadcasts = [("conv:" ++ FormatInt conv.ID, payload)] ∧
        (s.PostMessage env r).sends =
          (env.it.keys (s.hub.members (roomName conv.ID))).map fun c =>
            ⟨c, payload, env.fails c⟩) ∧
    ((s.GlobalPost env r).resp.status = 200 →
      ∃ payload,
        (s.GlobalPost env r).resp = JSON 200 payload ∧
        (s.GlobalPost env r).broadcasts = [("global", payload)] ∧
        (s.GlobalPost env r).sends =
          (env.it.keys (s.hub.members "global")).map fun c => ⟨c, payload, env.fails c⟩) := by
  constructor
  · intro hok
    obtain ⟨convID, conv, atype, body, hid, hconv, hat, hdec, hne, hq⟩ :=
      PostMessage_200 env s r hok
    have hID := getConversation_ID env 0 s convID conv hconv
    have hpart : UserID r = conv.StudentID ∨ UserID r = conv.MentorID := by
      by_cases h1 : UserID r = conv.StudentID
      · exact Or.inl h1
      · by_cases h2 : UserID r = conv.MentorID
        · exact Or.inr h2
        · simp [h1, h2] at hat
    rw [PostMessage_ok env s r convID conv atype body hid hconv hat hdec hne hq]
    refine ⟨convID, conv, _, hid, hconv, hID, hpart, rfl, ?_, ?_⟩
    · rw [hID]; rfl
    · rw [hID]
  · intro hok
    obtain ⟨body, hrole, hdec, hne, hq⟩ := GlobalPost_200 env s r hok
    rw [GlobalPost_ok env s r body hrole hdec hne hq]
    exact ⟨_, rfl, rfl, rfl⟩

/-- C10 in the scenario: identity 1 posts `hi` to conversation 5, whose room
is `conv:5`. -/
theorem C10_response_payload_is_the_one_broadcast_witness :
    (scenarioService.PostMessage scenarioEnv (scenarioRequest 1)).resp.status = 200 ∧
    roomName 5 = "conv:5" ∧
    ∃ convID conv payload,
      ParamInt64 (scenarioRequest 1) "id" = some convID ∧
      scenarioService.getConversation scenarioEnv 0 convID = some conv ∧
      conv.ID = convID ∧
      (UserID (scenarioRequest 1) = conv.StudentID ∨
        UserID (scenarioRequest 1) = conv.MentorID) ∧
      (scenarioService.PostMessage scenarioEnv (scenarioRequest 1)).resp = JSON 200 payload ∧
      (scenarioService.PostMessage scenarioEnv (scenarioRequest 1)).broadcasts
        = [("conv:" ++ FormatInt conv.ID, payload)] ∧
      (scenarioService.PostMessage scenarioEnv (scenarioRequest 1)).sends =
        (scenarioEnv.it.keys (scenarioService.hub.members (roomName conv.ID))).map fun c =>
          ⟨c, payload, scenarioEnv.fails c⟩ :=
  ⟨by decide, by decide,
    (C10_response_payload_is_the_one_broadcast scenarioEnv scenarioService
      (scenarioRequest 1)).1 (by decide)⟩

/-! ## The payload of a conversation post -/

/-- C11 as stated fails in the scenario: conversation 5, poster 1, body `hi`,
store id 42. The payload names the conversation under `conversationId`, has no
field `scope`, and its `authorType` is `student`. -/
theorem C11_payload_has_conversationId_and_no_scope :
    (scenarioService.PostMessage scenarioEnv (scenarioRequest 1)).resp
      = JSON 200
          [("type", .str "message"), ("conversationId", .int 5), ("id", .int 42),
           ("authorId", .int 1), ("authorType", .str "student"), ("body", .str "hi"),
           ("createdAt", .time 1003)] ∧
    ¬ (∃ payload,
        (scenarioService.PostMessage scenarioEnv (scenarioRequest 1)).resp = JSON 200 payload ∧
        payload.get "scope" = some (.int 5)) ∧
    ¬ (∃ payload,
        (scenarioService.PostMessage scenarioEnv (scenarioRequest 1)).resp = JSON 200 payload ∧
        payload.get "authorType" = some (.str "seeker")) := by
  have h : (scenarioService.PostMessage scenarioEnv (scenarioRequest 1)).resp
      = JSON 200
          [("type", .str "message"), ("conversationId", .int 5), ("id", .int 42),
           ("authorId", .int 1), ("authorType", .str "student"), ("body", .str "hi"),
           ("createdAt", .time 1003)] := by decide
  refine ⟨h, ?_, ?_⟩
  · rintro ⟨payload, hp, hscope⟩
    rw [h] at hp
    have hp2 : payload = [("type", .str "message"), ("conversationId", .int 5), ("id", .int 42),
        ("authorId", .int 1), ("authorType", .str "student"), ("body", .str "hi"),
        ("createdAt", .time 1003)] := by
      simpa [JSON] using hp.symm
    subst hp2
    revert hscope
    decide
  · rintro ⟨payload, hp, htype⟩
    rw [h] at hp
    have hp2 : payload = [("type", .str "message"), ("conversationId", .int 5), ("id", .int 42),
        ("authorId", .int 1), ("authorType", .str "student"), ("body", .str "hi"),
        ("createdAt", .time 1003)] := by
      simpa [JSON] using hp.symm
    subst hp2
    revert htype
    decide

/-- C11, amended: in every run of `PostMessage` that answers 200 the payload
has exactly the fields `type`, `conversationId`, `id`, `authorId`,
`authorType`, `body`, `createdAt`, each a scalar: `type` is `message`,
`conversationId` the id of the conversation, `id` the id the store assigned,
`authorId` the caller, `authorType` a string, `body` the decoded body and
`createdAt` a time. -/
theorem C11_conversation_payload_fields (env : Env) (s : Service) (r : Request)
    (hok : (s.PostMessage env r).resp.status = 200) :
    ∃ conv body atype payload,
      s.getConversation env 0 conv.ID = some conv ∧ ParamInt64 r "id" = some conv.ID ∧
      env.DecodeJSON r.body = some body ∧
      (s.PostMessage env r).resp = JSON 200 payload ∧
      (s.PostMessage env r).broadcasts = [(roomName conv.ID, payload)] ∧
      payload.map Prod.fst
        = ["type", "conversationId", "id", "authorId", "authorType", "body", "createdAt"] ∧
      payload.get "type" = some (.str "message") ∧
      payload.get "conversationId" = some (.int conv.ID) ∧
      payload.get "id" = some (.int env.nextID) ∧
      payload.get "authorId" = some (.int (UserID r)) ∧
      payload.get "authorType" = some (.str atype) ∧
      payload.get "body" = some (.str body) ∧
      payload.get "createdAt" = some (.time env.now) := by
  obtain ⟨convID, conv, atype, body, hid, hconv, hat, hdec, hne, hq⟩ :=
    PostMessage_200 env s r hok
  have hID := getConversation_ID env 0 s convID conv hconv
  subst hID
  rw [PostMessage_ok env s r conv.ID conv atype body hid hconv hat hdec hne hq]
  refine ⟨conv, body, atype, _, hconv, hid, hdec, rfl, rfl, rfl, ?_, ?_, ?_, ?_, ?_, ?_, ?_⟩ <;>
    simp [Payload.get]

/-- C11, amended, in the scenario: conversation 5, poster 1, body `hi`, store
id 42. -/
theorem C11_conversation_payload_fields_witness :
    (scenarioService.PostMessage scenarioEnv (scenarioRequest 1)).resp.status = 200 ∧
    ∃ conv body atype payload,
      scenarioService.getConversation scenarioEnv 0 conv.ID = some conv ∧
      ParamInt64 (scenarioRequest 1) "id" = some conv.ID ∧
      scenarioEnv.DecodeJSON (scenarioRequest 1).body = some body ∧
      (scenarioService.PostMessage scenarioEnv (scenarioRequest 1)).resp = JSON 200 payload ∧
      (scenarioService.PostMessage scenarioEnv (scenarioRequest 1)).broadcasts
        = [(roomName conv.ID, payload)] ∧
      payload.map Prod.fst
        = ["type", "conversationId", "id", "authorId", "authorType", "body", "createdAt"] ∧
      payload.get "type" = some (.str "message") ∧
      payload.get "conversationId" = some (.int conv.ID) ∧
      payload.get "id" = some (.int scenarioEnv.nextID) ∧
      payload.get "authorId" = some (.int (UserID (scenarioRequest 1))) ∧
      payload.get "authorType" = some (.str atype) ∧
      payload.get "body" = some (.str body) ∧
      payload.get "createdAt" = some (.time scenarioEnv.now) :=
  ⟨by decide,
    C11_conversation_payload_fields scenarioEnv scenarioService (scenarioRequest 1) (by decide)⟩

/-- C12 as stated fails in the scenario: poster 1 is the student of
conversation 5, and the author type stored with the row and carried by the
payload is `student`, not `seeker`. -/
theorem C12_author_type_of_participantA_is_student :
    scenarioService.getConversation scenarioEnv 0 5 = some ⟨5, 1, 2⟩ ∧
    UserID (scenarioRequest 1) = 1 ∧
    (scenarioService.PostMessage scenarioEnv (scenarioRequest 1)).resp.status = 200 ∧
    (scenarioService.PostMessage scenarioEnv (scenarioRequest 1)).svc.db.messages
      = [⟨42, 5, 1, "student", "hi", 1000⟩] ∧
    (scenarioService.PostMessage scenarioEnv (scenarioRequest 1)).resp
      = JSON 200
          [("type", .str "message"), ("conversationId", .int 5), ("id", .int 42),
           ("authorId", .int 1), ("authorType", .str "student"), ("body", .str "hi"),
           ("createdAt", .time 1003)] ∧
    Payload.get
        [("type", .str "message"), ("conversationId", .int 5), ("id", .int 42),
         ("authorId", .int 1), ("authorType", .str "student"), ("body", .str "hi"),
         ("createdAt", .time 1003)] "authorType" ≠ some (.str "seeker") := by
  decide

/-- C12, amended: in every run of `PostMessage` that answers 200 the author
type stored with the committed row is the `authorType` of the payload; it is
`student` when the caller is the student of the conversation, `mentor` when the
caller is its mentor and not its student, and never another value. -/
theorem C12_author_type_is_student_or_mentor (env : Env) (s : Service) (r : Request)
    (hok : (s.PostMessage env r).resp.status = 200) :
    ∃ conv row payload,
      s.getConversation env 0 conv.ID = some conv ∧ ParamInt64 r "id" = some conv.ID ∧
      (s.PostMessage env r).svc.db.messages = s.db.messages ++ [row] ∧
      (s.PostMessage env r).resp = JSON 200 payload ∧
      payload.get "authorType" = some (.str row.author_type) ∧
      (UserID r = conv.StudentID → row.author_type = "student") ∧
      (UserID r = conv.MentorID → UserID r ≠ conv.StudentID → row.author_type = "mentor") ∧
      (row.author_type = "student" ∨ row.author_type = "mentor") := by
  obtain ⟨convID, conv, atype, body, hid, hconv, hat, hdec, hne, hq⟩ :=
    PostMessage_200 env s r hok
  have hID := getConversation_ID env 0 s convID conv hconv
  subst hID
  rw [PostMessage_ok env s r conv.ID conv atype body hid hconv hat hdec hne hq]
  refine ⟨conv, _, _, hconv, hid, rfl, rfl, by simp [Payload.get], ?_, ?_, ?_⟩
  · intro h1
    simpa [h1] using hat.symm
  · intro h2 h1
    rw [if_neg h1, if_pos h2] at hat
    exact (Option.some.inj hat).symm
  · by_cases h1 : UserID r = conv.StudentID
    · left
      simpa [h1] using hat.symm
    · by_cases h2 : UserID r = conv.MentorID
      · right
        rw [if_neg h1, if_pos h2] at hat
        exact (Option.some.inj hat).symm
      · simp [h1, h2] at hat

/-- C12, amended, in the scenario: the mentor, identity 2, posts to
conversation 5. -/
theorem C12_author_type_is_student_or_mentor_witness :
    (scenarioService.PostMessage scenarioEnv (scenarioRequest 2)).resp.status = 200 ∧
    ∃ conv row payload,
      scenarioService.getConversation scenarioEnv 0 conv.ID = some conv ∧
      ParamInt64 (scenarioRequest 2) "id" = some conv.ID ∧
      (scenarioService.PostMessage scenarioEnv (scenarioRequest 2)).svc.db.messages
        = scenarioService.db.messages ++ [row] ∧
      (scenarioService.PostMessage scenarioEnv (scenarioRequest 2)).resp = JSON 200 payload ∧
      payload.get "authorType" = some (.str row.author_type) ∧
      (UserID (scenarioRequest 2) = conv.StudentID → row.author_type = "student") ∧
      (UserID (scenarioRequest 2) = conv.MentorID →
        UserID (scenarioRequest 2) ≠ conv.StudentID → row.author_type = "mentor") ∧
      (row.author_type = "student" ∨ row.author_type = "mentor") :=
  ⟨by decide,
    C12_author_type_is_student_or_mentor scenarioEnv scenarioService (scenarioRequest 2)
      (by decide)⟩

/-! ## The reading handlers -/

theorem Atoi_empty : Atoi "" = none := by decide

theorem QueryInt_limit (r : Request) :
    QueryInt r "limit" 50 = (Atoi (r.query "limit")).getD 50 := by
  unfold QueryInt
  by_cases hv : r.query "limit" = ""
  · simp [hv, Atoi_empty]
  · cases ha : Atoi (r.query "limit") <;> simp [hv, ha]

/-- The limit both history handlers compute from the request. -/
theorem pageLimit_eq_spec (r : Request) :
    (if QueryInt r "limit" 50 ≤ 0 ∨ QueryInt r "limit" 50 > 200 then 50
      else QueryInt r "limit" 50) = specPageSize (Atoi (r.query "limit")) := by
  rw [QueryInt_limit]
  unfold specPageSize
  cases Atoi (r.query "limit") with
  | none => simp
  | some n =>
    simp only [Option.getD_some]
    by_cases h : 1 ≤ n ∧ n ≤ 200
    · have h1 : ¬ (n ≤ 0 ∨ n > 200) := by omega
      rw [if_neg h1, if_pos h]
    · have h1 : n ≤ 0 ∨ n > 200 := by omega
      rw [if_pos h1, if_neg h]

theorem specPageSize_range (requested : Option Int) :
    1 ≤ specPageSize requested ∧ specPageSize requested ≤ 200 := by
  unfold specPageSize
  cases requested with
  | none => decide
  | some n =>
    by_cases h : 1 ≤ n ∧ n ≤ 200
    · simp [h]
    · simp [h]

theorem selectMessages_isOk (env : Env) (db : DB) (convID limit : Int)
    (hq : env.queryErr 1 = none) :
    ∃ items, selectMessages env 1 db convID limit = .ok items := by
  simp [selectMessages, hq]

theorem orderByCreatedAtDesc_perm {α : Type} (created_at : α → Time) (scan : ScanOrder α)
    (rows : List α) : (orderByCreatedAtDesc created_at scan rows).Perm rows := by
  unfold orderByCreatedAtDesc
  exact (List.perm_insertionSort _ _).trans (scan.perm rows)

theorem GlobalHistory_limit (env : Env) (s : Service) (r : Request) :
    (s.GlobalHistory env r).limit = some (specPageSize (Atoi (r.query "limit"))) := by
  rw [← pageLimit_eq_spec]
  unfold Service.GlobalHistory
  simp only []
  split <;> rfl

theorem GlobalHistory_status (env : Env) (s : Service) (r : Request) :
    (s.GlobalHistory env r).resp.status = if (env.queryErr 0).isSome then 500 else 200 := by
  unfold Service.GlobalHistory selectGlobalMessages
  cases hq : env.queryErr 0 <;> simp [httpError, JSON]

/-- The run of `History` for a request that names conversation `convID`. -/
theorem History_eq (env : Env) (s : Service) (r : Request) (convID : Int)
    (hid : ParamInt64 r "id" = some convID) :
    s.History env r =
      if (s.isMember env 0 convID (UserID r)).1 = false then
        { resp := httpError "forbidden" 403, svc := s, limit := none }
      else
        match selectMessages env 1 s.db convID (specPageSize (Atoi (r.query "limit"))) with
        | .error e =>
          { resp := httpError e 500, svc := s
            limit := some (specPageSize (Atoi (r.query "limit"))) }
        | .ok items =>
          { resp := JSON 200 [("items", .msgs items)], svc := s
            limit := some (specPageSize (Atoi (r.query "limit"))) } := by
  rw [← pageLimit_eq_spec]
  unfold Service.History
  simp only [hid]
  cases (s.isMember env 0 convID (UserID r)).1 <;> simp

theorem History_status (env : Env) (s : Service) (r : Request) :
    (s.History env r).resp.status =
      match ParamInt64 r "id" with
      | none => 400
      | some convID =>
        if (s.isMember env 0 convID (UserID r)).1 = false then 403
        else if (env.queryErr 1).isSome then 500 else 200 := by
  cases hid : ParamInt64 r "id" with
  | none => simp [Service.History, hid, httpError]
  | some convID =>
    rw [History_eq env s r convID hid]
    cases hm : (s.isMember env 0 convID (UserID r)).1
    · simp [httpError, hm]
    · cases hq : env.queryErr 1 <;> simp [selectMessages, hq, httpError, JSON, hm]

/-- The run of `GlobalHistory`. -/
theorem GlobalHistory_eq (env : Env) (s : Service) (r : Request) :
    s.GlobalHistory env r =
      match selectGlobalMessages env 0 s.db (specPageSize (Atoi (r.query "limit"))) with
      | .error e =>
        { resp := httpError e 500, svc := s
          limit := some (specPageSize (Atoi (r.query "limit"))) }
      | .ok items =>
        { resp := JSON 200 [("items", .globalMsgs items)], svc := s
          limit := some (specPageSize (Atoi (r.query "limit"))) } := by
  rw [← pageLimit_eq_spec]
  rfl

theorem flatMap_length_ge {α β : Type} (g : α → List β) (hg : ∀ x, 1 ≤ (g x).length) :
    ∀ l : List α, l.length ≤ (l.flatMap g).length := by
  intro l
  induction l with
  | nil => simp
  | cons a l ih =>
    rw [List.flatMap_cons, List.length_append, List.length_cons]
    have := hg a
    omega

/-- The page of `selectMessages` holds `limit` rows when the conversation has
as many, and all its rows otherwise. -/
theorem selectMessages_length (env : Env) (db : DB) (convID limit : Int)
    (items : List HistoryMsg) (h : selectMessages env 1 db convID limit = .ok items) :
    items.length
      = min limit.toNat (db.messages.filter fun row => row.conversation_id = convID).length := by
  unfold selectMessages at h
  cases hq : env.queryErr 1 with
  | some e => simp [hq] at h
  | none =>
    simp only [hq, Except.ok.injEq] at h
    rw [← h, List.length_map, List.length_take,
      (orderByCreatedAtDesc_perm MessageRow.created_at env.scanMessages _).length_eq]

/-- The page of `selectGlobalMessages` holds at most `limit` rows, and `limit`
rows when the table has as many. -/
theorem selectGlobalMessages_length (env : Env) (db : DB) (limit : Int)
    (items : List GlobalHistoryMsg) (h : selectGlobalMessages env 0 db limit = .ok items) :
    items.length ≤ limit.toNat ∧
    (limit.toNat ≤ db.global_messages.length → items.length = limit.toNat) := by
  unfold selectGlobalMessages at h
  cases hq : env.queryErr 0 with
  | some e => simp [hq] at h
  | none =>
    simp only [hq, Except.ok.injEq] at h
    rw [← h, List.length_take]
    refine ⟨Nat.min_le_left _ _, fun hle => ?_⟩
    have hlen := flatMap_length_ge
      (fun gm : GlobalMessageRow =>
        match db.users.filter fun u => u.id = gm.author_id with
        | [] => [(⟨gm.id, gm.author_id, " ", gm.body, gm.created_at⟩ : GlobalHistoryMsg)]
        | us => us.map fun u =>
            ⟨gm.id, gm.author_id, u.first_name.getD "" ++ " " ++ u.last_name.getD "", gm.body,
              gm.created_at⟩)
      (by
        intro gm
        cases hu : db.users.filter fun u => u.id = gm.author_id with
        | nil => simp [hu]
        | cons u us => simp [hu])
      (orderByCreatedAtDesc GlobalMessageRow.created_at env.scanGlobal db.global_messages)
    rw [(orderByCreatedAtDesc_perm GlobalMessageRow.created_at env.scanGlobal _).length_eq]
      at hlen
    omega

/-- C13: `GlobalHistory` and `History` send their `SELECT` with the page size
of the spec as its `LIMIT`, the requested integer when it lies within 1 and 200
and 50 otherwise: each answers with what the statement with that `LIMIT`
yields, `History` whenever the caller passes the membership check; so the page
holds that many messages when the store has as many. The page size lies within
1 and 200, and the status of either response is the same whatever the value of
the parameter `limit`. -/
theorem C13_page_size_is_requested_or_default (env : Env) (s : Service) (r : Request) :
    ((∀ e, selectGlobalMessages env 0 s.db (specPageSize (Atoi (r.query "limit"))) = .error e →
        (s.GlobalHistory env r).resp = httpError e 500) ∧
      (∀ items,
        selectGlobalMessages env 0 s.db (specPageSize (Atoi (r.query "limit"))) = .ok items →
        (s.GlobalHistory env r).resp = JSON 200 [("items", .globalMsgs items)] ∧
        items.length ≤ (specPageSize (Atoi (r.query "limit"))).toNat ∧
        ((specPageSize (Atoi (r.query "limit"))).toNat ≤ s.db.global_messages.length →
          items.length = (specPageSize (Atoi (r.query "limit"))).toNat)) ∧
      (s.GlobalHistory env r).limit = some (specPageSize (Atoi (r.query "limit")))) ∧
    (∀ convID, ParamInt64 r "id" = some convID →
      (s.isMember env 0 convID (UserID r)).1 = true →
      (∀ e,
        selectMessages env 1 s.db convID (specPageSize (Atoi (r.query "limit"))) = .error e →
        (s.History env r).resp = httpError e 500) ∧
      (∀ items,
        selectMessages env 1 s.db convID (specPageSize (Atoi (r.query "limit"))) = .ok items →
        (s.History env r).resp = JSON 200 [("items", .msgs items)] ∧
        items.length = min (specPageSize (Atoi (r.query "limit"))).toNat
          (s.db.messages.filter fun row => row.conversation_id = convID).length) ∧
      (s.History env r).limit = some (specPageSize (Atoi (r.query "limit")))) ∧
    (∀ L, (s.History env r).limit = some L → L = specPageSize (Atoi (r.query "limit"))) ∧
    (1 ≤ specPageSize (Atoi (r.query "limit")) ∧
      specPageSize (Atoi (r.query "limit")) ≤ 200) ∧
    (∀ v : String,
      (s.History env { r with query := Function.update r.query "limit" v }).resp.status
        = (s.History env r).resp.status ∧
      (s.GlobalHistory env { r with query := Function.update r.query "limit" v }).resp.status
        = (s.GlobalHistory env r).resp.status) := by
  refine ⟨⟨?_, ?_, GlobalHistory_limit env s r⟩, ?_, ?_, specPageSize_range _, ?_⟩
  · intro e he
    rw [GlobalHistory_eq, he]
  · intro items hitems
    refine ⟨by rw [GlobalHistory_eq, hitems], selectGlobalMessages_length env s.db _ items hitems⟩
  · intro convID hid hm
    refine ⟨?_, ?_, ?_⟩
    · intro e he
      rw [History_eq env s r convID hid]
      simp only [hm, Bool.true_eq_false, if_false, he]
    · intro items hitems
      refine ⟨?_, selectMessages_length env s.db convID _ items hitems⟩
      rw [History_eq env s r convID hid]
      simp only [hm, Bool.true_eq_false, if_false, hitems]
    · rw [History_eq env s r convID hid]
      simp only [hm, Bool.true_eq_false, if_false]
      split <;> rfl
  · intro L hL
    cases hid : ParamInt64 r "id" with
    | none => simp [Service.History, hid] at hL
    | some convID =>
      rw [History_eq env s r convID hid] at hL
      split at hL
      · simp at hL
      · split at hL <;> simpa using hL.symm
  · intro v
    constructor
    · rw [History_status, History_status]
      rfl
    · rw [GlobalHistory_status, GlobalHistory_status]

/-- C13 in the store with messages, where conversation 5 holds three messages
and the global room two: participant 1 reads conversation 5 with `limit=2` and
gets two messages, and reads the global room with `limit=1` and gets one. -/
theorem C13_page_size_is_requested_or_default_witness :
    ParamInt64 (historyRequest 1 "5" "2") "id" = some 5 ∧
    (historyService.isMember scenarioEnv 0 5 (UserID (historyRequest 1 "5" "2"))).1 = true ∧
    specPageSize (Atoi ((historyRequest 1 "5" "2").query "limit")) = 2 ∧
    ((historyService.History scenarioEnv (historyRequest 1 "5" "2")).resp
        = JSON 200 [("items", .msgs [⟨43, 1, "student", "three", 1100⟩,
            ⟨42, 2, "mentor", "two", 1000⟩])] ∧
      [(⟨43, 1, "student", "three", 1100⟩ : HistoryMsg), ⟨42, 2, "mentor", "two", 1000⟩].length
        = min (specPageSize (Atoi ((historyRequest 1 "5" "2").query "limit"))).toNat
          (historyService.db.messages.filter fun row => row.conversation_id = 5).length) ∧
    ((historyService.GlobalHistory scenarioEnv (historyRequest 1 "" "1")).resp
        = JSON 200 [("items", .globalMsgs [⟨8, 9, " ", "all", 850⟩])] ∧
      [(⟨8, 9, " ", "all", 850⟩ : GlobalHistoryMsg)].length
        ≤ (specPageSize (Atoi ((historyRequest 1 "" "1").query "limit"))).toNat ∧
      ((specPageSize (Atoi ((historyRequest 1 "" "1").query "limit"))).toNat
          ≤ historyService.db.global_messages.length →
        [(⟨8, 9, " ", "all", 850⟩ : GlobalHistoryMsg)].length
          = (specPageSize (Atoi ((historyRequest 1 "" "1").query "limit"))).toNat)) :=
  ⟨by decide, by decide, by decide,
    ((C13_page_size_is_requested_or_default scenarioEnv historyService
      (historyRequest 1 "5" "2")).2.1 5 (by decide) (by decide)).2.1
      [⟨43, 1, "student", "three", 1100⟩, ⟨42, 2, "mentor", "two", 1000⟩] (by rfl),
    (C13_page_size_is_requested_or_default scenarioEnv historyService
      (historyRequest 1 "" "1")).1.2.1 [⟨8, 9, " ", "all", 850⟩] (by rfl)⟩

theorem History_examples :
    (historyService.History scenarioEnv (historyRequest 1 "5" "2")).limit = some 2 ∧
    (historyService.History scenarioEnv (historyRequest 1 "5" "200")).limit = some 200 ∧
    (historyService.History scenarioEnv (historyRequest 1 "5" "201")).limit = some 50 ∧
    (historyService.History scenarioEnv (historyRequest 1 "5" "0")).limit = some 50 ∧
    (historyService.History scenarioEnv (historyRequest 1 "5" "-3")).limit = some 50 ∧
    (historyService.History scenarioEnv (historyRequest 1 "5" "ten")).limit = some 50 ∧
    (historyService.History scenarioEnv (historyRequest 1 "5" "")).limit = some 50 ∧
    (historyService.GlobalHistory scenarioEnv (historyRequest 1 "" "1")).limit = some 1 ∧
    (historyService.History scenarioEnv (historyRequest 1 "5" "2")).resp
      = JSON 200 [("items", .msgs [⟨43, 1, "student", "three", 1100⟩,
          ⟨42, 2, "mentor", "two", 1000⟩])] ∧
    (historyService.GlobalHistory scenarioEnv (historyRequest 1 "" "500")).resp
      = JSON 200 [("items", .globalMsgs [⟨8, 9, " ", "all", 850⟩,
          ⟨7, 1, "Ada Lovelace", "hello", 800⟩])] ∧
    (historyService.History scenarioEnv (historyRequest 3 "5" "2")).resp
      = httpError "forbidden" 403 := by
  decide

theorem isMember_of_row (env : Env) (s : Service) (convID uid cid a b : Int)
    (hq : env.queryErr 0 = none)
    (hrow : s.db.conversations.find? (fun row => row.id = convID) = some ⟨cid, some a, some b⟩) :
    (s.isMember env 0 convID uid).1 = (decide (uid = a) || decide (uid = b)) := by
  simp [Service.isMember, hq, hrow]

/-- C14: when the request names a conversation whose row the store holds, with
student `a` and mentor `b`, `History` answers 403 exactly when the caller is
neither `a` nor `b`, and then with the text `forbidden` and no message; for
`a` and for `b` it sends the `SELECT`, and answers 200 with the items when
that statement succeeds. -/
theorem C14_history_forbidden_iff_not_participant (env : Env) (s : Service) (r : Request)
    (convID cid a b : Int)
    (hid : ParamInt64 r "id" = some convID)
    (hq : env.queryErr 0 = none)
    (hrow : s.db.conversations.find? (fun row => row.id = convID) = some ⟨cid, some a, some b⟩) :
    ((s.History env r).resp.status = 403 ↔ UserID r ≠ a ∧ UserID r ≠ b) ∧
    ((s.History env r).resp.status = 403 →
      (s.History env r).resp = httpError "forbidden" 403 ∧ (s.History env r).limit = none) ∧
    (UserID r = a ∨ UserID r = b →
      (s.History env r).limit = some (specPageSize (Atoi (r.query "limit"))) ∧
      (env.queryErr 1 = none → ∃ items,
        (s.History env r).resp = JSON 200 [("items", .msgs items)])) := by
  have hm := isMember_of_row env s convID (UserID r) cid a b hq hrow
  have hst := History_status env s r
  simp only [hid] at hst
  by_cases hp : UserID r = a ∨ UserID r = b
  · have hm1 : (s.isMember env 0 convID (UserID r)).1 = true := by
      rw [hm]
      rcases hp with h | h <;> simp [h]
    have hne : (s.History env r).resp.status ≠ 403 := by
      rw [hst]
      simp only [hm1, Bool.true_eq_false, if_false]
      split <;> decide
    refine ⟨⟨fun h => absurd h hne, fun h => ?_⟩, fun h => absurd h hne, fun _ => ?_⟩
    · rcases hp with h1 | h1
      · exact absurd h1 h.1
      · exact absurd h1 h.2
    · rw [History_eq env s r convID hid]
      simp only [hm1, Bool.true_eq_false, if_false]
      constructor
      · split <;> rfl
      · intro hq1
        obtain ⟨items, hitems⟩ := selectMessages_isOk env s.db convID
          (specPageSize (Atoi (r.query "limit"))) hq1
        exact ⟨items, by rw [hitems]⟩
  · have hm0 : (s.isMember env 0 convID (UserID r)).1 = false := by
      rw [hm]
      simp only [not_or] at hp
      simp [hp.1, hp.2]
    have heq : s.History env r = { resp := httpError "forbidden" 403, svc := s, limit := none } := by
      rw [History_eq env s r convID hid]
      simp [hm0]
    rw [heq]
    refine ⟨⟨fun _ => not_or.mp hp, fun _ => rfl⟩, fun _ => ⟨rfl, rfl⟩, fun h => absurd h hp⟩

/-- C14 in the store with messages: identity 3 is no participant of
conversation 5. -/
theorem C14_history_forbidden_iff_not_participant_witness :
    (historyService.History scenarioEnv (historyRequest 3 "5" "")).resp.status = 403 ∧
    (historyService.History scenarioEnv (historyRequest 3 "5" "")).resp
      = httpError "forbidden" 403 ∧
    (historyService.History scenarioEnv (historyRequest 3 "5" "")).limit = none :=
  have h := C14_history_forbidden_iff_not_participant scenarioEnv historyService
    (historyRequest 3 "5" "") 5 5 1 2 (by decide) (by decide) (by decide)
  ⟨h.1.mpr (by decide), h.2.1 (h.1.mpr (by decide))⟩

/-! ## The websocket handlers -/

theorem readLoop_until_error (frames : List Frame) (e : String)
    (rest : List (Except String Frame)) :
    readLoop (frames.map Except.ok ++ Except.error e :: rest) = (frames, true) := by
  induction frames with
  | nil => rfl
  | cons f frames ih => simp [readLoop, ih]

theorem serveWS_join (env : Env) (s : Service) (room other : String) (c : Conn)
    (h : WSEvent.join other c ∈ (s.serveWS env room).events) :
    other = room ∧ env.Upgrade = .ok c := by
  unfold Service.serveWS at h
  cases hup : env.Upgrade with
  | error e => simp [hup, WSOutcome.halt] at h
  | ok conn =>
    simp only [hup] at h
    split at h <;> simp at h <;> exact ⟨h.1, by rw [h.2]⟩

theorem serveWS_ended (env : Env) (s : Service) (room : String) (c : Conn)
    (frames : List Frame) (e : String) (rest : List (Except String Frame))
    (hup : env.Upgrade = .ok c)
    (hreads : env.reads = frames.map Except.ok ++ Except.error e :: rest) :
    SessionEnded s room c frames (s.serveWS env room) := by
  have ho : s.serveWS env room =
      { resp := none
        svc := { db := s.db, hub := (s.hub.Join room c).Leave room c }
        events := [.upgrade c, .join room c] ++ frames.map .read ++ [.leave room c, .close c]
        returned := true } := by
    simp [Service.serveWS, hup, hreads, readLoop_until_error]
  rw [ho]
  have hmem : ((s.hub.Join room c).Leave room c).members room = (s.hub.members room).erase c := by
    rw [Hub.members_Leave, Hub.members_Join, Finset.erase_insert_eq_erase]
  refine ⟨rfl, rfl, rfl, ?_, ?_, ?_⟩
  · show c ∉ ((s.hub.Join room c).Leave room c).members room
    rw [hmem]
    exact Finset.not_mem_erase c _
  · intro hfresh other
    show c ∉ ((s.hub.Join room c).Leave room c).members other
    by_cases ho : other = room
    · subst ho
      rw [hmem]
      exact Finset.not_mem_erase c _
    · have : ((s.hub.Join room c).Leave room c).members other = s.hub.members other := by
        unfold Hub.members
        rw [Hub.Leave_other _ room other c ho, Hub.Join_rooms, Function.update_noteq ho]
      rw [this]
      exact hfresh other
  · intro hlast
    show ((s.hub.Join room c).Leave room c).rooms room = none
    rw [Hub.Leave_rooms, Hub.members_Join, Finset.erase_insert_eq_erase, if_pos hlast]
    simp

theorem serveWS_no_events (env : Env) (s : Service) (room : String)
    (h : (s.serveWS env room).events = []) : (s.serveWS env room).svc.hub = s.hub := by
  unfold Service.serveWS at h ⊢
  cases hup : env.Upgrade with
  | error e => rfl
  | ok conn =>
    simp only [hup] at h
    split at h <;> simp at h

/-- A run of `ChatWS` ends on an early return, or passed every check and went
on to the upgrade for the room of the conversation. -/
theorem ChatWS_cases (env : Env) (s : Service) (r : Request) :
    (∃ resp, s.ChatWS env r = WSOutcome.halt s resp) ∨
    ∃ convID conv, r.query "conversationId" ≠ "" ∧
      ParseInt64 (r.query "conversationId") = some convID ∧
      s.getConversation env 0 convID = some conv ∧
      (UserID r = conv.StudentID ∨ UserID r = conv.MentorID) ∧
      s.ChatWS env r = s.serveWS env (roomName convID) := by
  by_cases hq : r.query "conversationId" = ""
  · exact Or.inl ⟨httpError "conversationId required" 400, by simp [Service.ChatWS, hq]⟩
  · cases hid : ParseInt64 (r.query "conversationId") with
    | none => exact Or.inl ⟨httpError "bad id" 400, by simp [Service.ChatWS, hq, hid]⟩
    | some convID =>
      cases hconv : s.getConversation env 0 convID with
      | none =>
        exact Or.inl ⟨httpError "not found" 404, by simp [Service.ChatWS, hq, hid, hconv]⟩
      | some conv =>
        by_cases hp : UserID r ≠ conv.StudentID ∧ UserID r ≠ conv.MentorID
        · exact Or.inl ⟨httpError "forbidden" 403,
            by simp [Service.ChatWS, hq, hid, hconv, hp.1, hp.2]⟩
        · refine Or.inr ⟨convID, conv, hq, rfl, hconv, ?_, ?_⟩
          · by_contra hcon
            exact hp ⟨fun h => hcon (Or.inl h), fun h => hcon (Or.inr h)⟩
          · simp only [Service.ChatWS, hq, hid, hconv, hp, if_false]

/-- A run of `GlobalWS` answers 403, or passed the role check and went on to
the upgrade for room `global`. -/
theorem GlobalWS_cases (env : Env) (s : Service) (r : Request) :
    (hasChatRole env 0 s.db (UserID r) ≠ some true ∧
      s.GlobalWS env r = WSOutcome.halt s (httpError "forbidden" 403)) ∨
    (hasChatRole env 0 s.db (UserID r) = some true ∧
      s.GlobalWS env r = s.serveWS env "global") := by
  cases h : hasChatRole env 0 s.db (UserID r) with
  | none => exact Or.inl ⟨by simp, by simp [Service.GlobalWS, h]⟩
  | some b =>
    cases b with
    | false => exact Or.inl ⟨by simp, by simp [Service.GlobalWS, h]⟩
    | true => exact Or.inr ⟨rfl, by simp [Service.GlobalWS, h]⟩

/-- C15: `ChatWS` answers 403 when the conversation is found and the caller is
neither its student nor its mentor, and `GlobalWS` answers 403 when the role
query does not report a `student` or `mentor` role; both then return without
an upgrade or a `Join`, the hub as it was. A run of either handler that joins a
connection to a room has passed that check, and the room is the one checked. -/
theorem C15_join_only_after_authorization (env : Env) (s : Service) (r : Request) :
    (∀ convID conv, r.query "conversationId" ≠ "" →
      ParseInt64 (r.query "conversationId") = some convID →
      s.getConversation env 0 convID = some conv →
      UserID r ≠ conv.StudentID → UserID r ≠ conv.MentorID →
      (s.ChatWS env r).resp = some (httpError "forbidden" 403) ∧
      (s.ChatWS env r).events = [] ∧ (s.ChatWS env r).svc.hub = s.hub ∧
      (s.ChatWS env r).returned = true) ∧
    (hasChatRole env 0 s.db (UserID r) ≠ some true →
      (s.GlobalWS env r).resp = some (httpError "forbidden" 403) ∧
      (s.GlobalWS env r).events = [] ∧ (s.GlobalWS env r).svc.hub = s.hub ∧
      (s.GlobalWS env r).returned = true) ∧
    (∀ room c, WSEvent.join room c ∈ (s.ChatWS env r).events →
      ∃ convID conv, ParseInt64 (r.query "conversationId") = some convID ∧
        s.getConversation env 0 convID = some conv ∧
        (UserID r = conv.StudentID ∨ UserID r = conv.MentorID) ∧
        room = roomName convID ∧ env.Upgrade = .ok c) ∧
    (∀ room c, WSEvent.join room c ∈ (s.GlobalWS env r).events →
      hasChatRole env 0 s.db (UserID r) = some true ∧ room = "global" ∧
        env.Upgrade = .ok c) ∧
    ((s.ChatWS env r).events = [] → (s.ChatWS env r).svc.hub = s.hub) ∧
    ((s.GlobalWS env r).events = [] → (s.GlobalWS env r).svc.hub = s.hub) := by
  refine ⟨?_, ?_, ?_, ?_, ?_, ?_⟩
  · intro convID conv hq hid hconv h1 h2
    have : s.ChatWS env r = WSOutcome.halt s (httpError "forbidden" 403) := by
      simp [Service.ChatWS, hq, hid, hconv, h1, h2]
    rw [this]
    exact ⟨rfl, rfl, rfl, rfl⟩
  · intro hrole
    rcases GlobalWS_cases env s r with ⟨-, h⟩ | ⟨h, -⟩
    · rw [h]
      exact ⟨rfl, rfl, rfl, rfl⟩
    · exact absurd h hrole
  · intro room c hj
    rcases ChatWS_cases env s r with ⟨resp, h⟩ | ⟨convID, conv, -, hid, hconv, hp, h⟩
    · simp [h, WSOutcome.halt] at hj
    · rw [h] at hj
      obtain ⟨hroom, hup⟩ := serveWS_join env s _ room c hj
      exact ⟨convID, conv, hid, hconv, hp, hroom, hup⟩
  · intro room c hj
    rcases GlobalWS_cases env s r with ⟨-, h⟩ | ⟨hrole, h⟩
    · simp [h, WSOutcome.halt] at hj
    · rw [h] at hj
      obtain ⟨hroom, hup⟩ := serveWS_join env s _ room c hj
      exact ⟨hrole, hroom, hup⟩
  · intro hev
    rcases ChatWS_cases env s r with ⟨resp, h⟩ | ⟨convID, conv, -, -, -, -, h⟩
    · rw [h]; rfl
    · rw [h] at hev ⊢
      exact serveWS_no_events env s _ hev
  · intro hev
    rcases GlobalWS_cases env s r with ⟨-, h⟩ | ⟨-, h⟩
    · rw [h]; rfl
    · rw [h] at hev ⊢
      exact serveWS_no_events env s _ hev

/-- C15 in the scenario: identity 3 opens a socket on conversation 5, and
identity 4, with the role `seeker` only, on the global room. -/
theorem C15_join_only_after_authorization_witness :
    ((scenarioService.ChatWS socketEnv (socketRequest 3 "5")).resp
        = some (httpError "forbidden" 403) ∧
      (scenarioService.ChatWS socketEnv (socketRequest 3 "5")).events = [] ∧
      (scenarioService.ChatWS socketEnv (socketRequest 3 "5")).svc.hub = scenarioService.hub ∧
      (scenarioService.ChatWS socketEnv (socketRequest 3 "5")).returned = true) ∧
    ((seekerService.GlobalWS socketEnv (socketRequest 4 "")).resp
        = some (httpError "forbidden" 403) ∧
      (seekerService.GlobalWS socketEnv (socketRequest 4 "")).events = [] ∧
      (seekerService.GlobalWS socketEnv (socketRequest 4 "")).svc.hub = seekerService.hub ∧
      (seekerService.GlobalWS socketEnv (socketRequest 4 "")).returned = true) :=
  ⟨(C15_join_only_after_authorization socketEnv scenarioService (socketRequest 3 "5")).1
      5 ⟨5, 1, 2⟩ (by decide) (by decide) (by decide) (by decide) (by decide),
    (C15_join_only_after_authorization socketEnv seekerService (socketRequest 4 "")).2.1
      (by decide)⟩

/-- C16: when the upgrade yields connection `c` and the reads deliver `frames`
and then fail, a run of `ChatWS` that passed its check, and a run of `GlobalWS`
that passed its own, end the session of `c` in the room they joined it to. -/
theorem C16_failed_read_leaves_then_closes (env : Env) (s : Service) (r : Request) (c : Conn)
    (frames : List Frame) (e : String) (rest : List (Except String Frame))
    (hup : env.Upgrade = .ok c)
    (hreads : env.reads = frames.map Except.ok ++ Except.error e :: rest) :
    (∀ convID conv, r.query "conversationId" ≠ "" →
      ParseInt64 (r.query "conversationId") = some convID →
      s.getConversation env 0 convID = some conv →
      (UserID r = conv.StudentID ∨ UserID r = conv.MentorID) →
      SessionEnded s (roomName convID) c frames (s.ChatWS env r)) ∧
    (hasChatRole env 0 s.db (UserID r) = some true →
      SessionEnded s "global" c frames (s.GlobalWS env r)) := by
  constructor
  · intro convID conv hq hid hconv hp
    have h : s.ChatWS env r = s.serveWS env (roomName convID) := by
      have hp2 : ¬ (UserID r ≠ conv.StudentID ∧ UserID r ≠ conv.MentorID) := by
        rintro ⟨h1, h2⟩
        rcases hp with h | h
        · exact h1 h
        · exact h2 h
      simp only [Service.ChatWS, hq, hid, hconv, hp2, if_false]
    rw [h]
    exact serveWS_ended env s _ c frames e rest hup hreads
  · intro hrole
    rcases GlobalWS_cases env s r with ⟨hne, -⟩ | ⟨-, h⟩
    · exact absurd hrole hne
    · rw [h]
      exact serveWS_ended env s _ c frames e rest hup hreads

/-- C16 in the scenario: the student of conversation 5 opens a socket, which
becomes connection 9, delivers two frames and then fails to read. -/
theorem C16_failed_read_leaves_then_closes_witness :
    socketEnv.Upgrade = .ok 9 ∧
    socketEnv.reads
      = [(⟨1, "ping"⟩ : Frame), ⟨1, "hi"⟩].map Except.ok ++ Except.error "unexpected EOF" :: [] ∧
    SessionEnded scenarioService (roomName 5) 9 [⟨1, "ping"⟩, ⟨1, "hi"⟩]
      (scenarioService.ChatWS socketEnv (socketRequest 1 "5")) ∧
    SessionEnded scenarioService "global" 9 [⟨1, "ping"⟩, ⟨1, "hi"⟩]
      (scenarioService.GlobalWS socketEnv (socketRequest 1 "5")) :=
  have h := C16_failed_read_leaves_then_closes socketEnv scenarioService (socketRequest 1 "5") 9
    [⟨1, "ping"⟩, ⟨1, "hi"⟩] "unexpected EOF" [] rfl rfl
  ⟨rfl, rfl, h.1 5 ⟨5, 1, 2⟩ (by decide) (by decide) (by decide) (by decide),
    h.2 (by decide)⟩

theorem ChatWS_example :
    (scenarioService.ChatWS socketEnv (socketRequest 1 "5")).events
      = [.upgrade 9, .join "conv:5" 9, .read ⟨1, "ping"⟩, .read ⟨1, "hi"⟩,
         .leave "conv:5" 9, .close 9] ∧
    (scenarioService.ChatWS socketEnv (socketRequest 1 "5")).svc.hub.members "conv:5" = {7} ∧
    (historyService.ChatWS socketEnv (socketRequest 2 "5")).svc.hub.rooms "conv:5" = none ∧
    (scenarioService.ChatWS { socketEnv with reads := [.ok ⟨1, "ping"⟩] }
      (socketRequest 1 "5")).returned = false ∧
    (scenarioService.ChatWS { socketEnv with reads := [.ok ⟨1, "ping"⟩] }
      (socketRequest 1 "5")).svc.hub.members "conv:5" = {7, 9} := by
  decide

/-- A request that is not a websocket handshake: the upgrader replies 400
`Bad Request`, and the handler appends the text of the error. -/
theorem ChatWS_upgrade_failure_example :
    (scenarioService.ChatWS scenarioEnv (socketRequest 1 "5")).resp
      = some ⟨400, .text
          "Bad Request\nwebsocket: the client is not using the websocket protocol\n"⟩ ∧
    (scenarioService.ChatWS scenarioEnv (socketRequest 1 "5")).events = [] ∧
    (scenarioService.ChatWS scenarioEnv (socketRequest 1 "5")).svc = scenarioService := by
  refine ⟨by decide, by decide, rfl⟩

/-! ## Refusals of the posting handlers -/

theorem hasChatRole_true_iff (env : Env) (db : DB) (uid : Int) :
    hasChatRole env 0 db uid = some true ↔
      env.queryErr 0 = none ∧
      ∃ row ∈ db.user_roles, row.user_id = uid ∧ (row.role = "student" ∨ row.role = "mentor") := by
  unfold hasChatRole
  cases hq : env.queryErr 0 with
  | some e => simp
  | none => simp [List.any_eq_true]

/-- The run of `GlobalPost` when the role check does not pass. -/
theorem GlobalPost_forbidden (env : Env) (s : Service) (r : Request)
    (h : hasChatRole env 0 s.db (UserID r) ≠ some true) :
    s.GlobalPost env r = Outcome.halt s (httpError "forbidden" 403) := by
  cases hr : hasChatRole env 0 s.db (UserID r) with
  | none => simp [Service.GlobalPost, hr]
  | some b =>
    cases b with
    | false => simp [Service.GlobalPost, hr]
    | true => exact absurd hr h

/-- C17: the role the spec calls seeker is the one the program stores in
`user_roles` as `student`. `GlobalPost` by a caller who has a row in
`user_roles` with the role `student` or `mentor` answers 200, commits the row
and broadcasts to `global`, when the body decodes to a non-empty text and the
role query and the insert succeed; by a caller with neither role it answers
403 `forbidden`, leaves the store as it was and makes no call to `Broadcast`. -/
theorem C17_global_post_needs_student_or_mentor_role (env : Env) (s : Service) (r : Request) :
    (∀ body,
      (∃ row ∈ s.db.user_roles,
        row.user_id = UserID r ∧ (row.role = "student" ∨ row.role = "mentor")) →
      env.queryErr 0 = none → env.DecodeJSON r.body = some body → body ≠ "" →
      env.queryErr 1 = none →
      (s.GlobalPost env r).resp.status = 200 ∧
      (s.GlobalPost env r).svc.db.global_messages
        = s.db.global_messages ++ [⟨env.nextID, UserID r, body, env.dbNow⟩] ∧
      (s.GlobalPost env r).broadcasts.map Prod.fst = ["global"]) ∧
    ((∀ row ∈ s.db.user_roles,
        row.user_id = UserID r → row.role ≠ "student" ∧ row.role ≠ "mentor") →
      (s.GlobalPost env r).resp = httpError "forbidden" 403 ∧
      (s.GlobalPost env r).svc.db = s.db ∧
      (s.GlobalPost env r).broadcasts = [] ∧ (s.GlobalPost env r).sends = []) := by
  constructor
  · intro body hrow hq0 hdec hne hq1
    have hrole := (hasChatRole_true_iff env s.db (UserID r)).mpr ⟨hq0, hrow⟩
    rw [GlobalPost_ok env s r body hrole hdec hne hq1]
    exact ⟨rfl, rfl, rfl⟩
  · intro hnone
    have hrole : hasChatRole env 0 s.db (UserID r) ≠ some true := by
      intro h
      obtain ⟨-, row, hmem, huid, hr⟩ := (hasChatRole_true_iff env s.db (UserID r)).mp h
      have := hnone row hmem huid
      rcases hr with h1 | h1
      · exact this.1 h1
      · exact this.2 h1
    rw [GlobalPost_forbidden env s r hrole]
    exact ⟨rfl, rfl, rfl, rfl⟩

/-- C17 in the scenario: identity 1 holds the role `student`, and identity 3
holds no role. -/
theorem C17_global_post_needs_student_or_mentor_role_witness :
    ((scenarioService.GlobalPost scenarioEnv (scenarioRequest 1)).resp.status = 200 ∧
      (scenarioService.GlobalPost scenarioEnv (scenarioRequest 1)).svc.db.global_messages
        = scenarioService.db.global_messages
          ++ [⟨scenarioEnv.nextID, UserID (scenarioRequest 1), "hi", scenarioEnv.dbNow⟩] ∧
      (scenarioService.GlobalPost scenarioEnv (scenarioRequest 1)).broadcasts.map Prod.fst
        = ["global"]) ∧
    ((scenarioService.GlobalPost scenarioEnv (scenarioRequest 3)).resp
        = httpError "forbidden" 403 ∧
      (scenarioService.GlobalPost scenarioEnv (scenarioRequest 3)).svc.db = scenarioService.db ∧
      (scenarioService.GlobalPost scenarioEnv (scenarioRequest 3)).broadcasts = [] ∧
      (scenarioService.GlobalPost scenarioEnv (scenarioRequest 3)).sends = []) :=
  ⟨(C17_global_post_needs_student_or_mentor_role scenarioEnv scenarioService
      (scenarioRequest 1)).1 "hi" (by decide) (by decide) (by decide) (by decide) (by decide),
    (C17_global_post_needs_student_or_mentor_role scenarioEnv scenarioService
      (scenarioRequest 3)).2 (by decide)⟩

/-- C18: when the body of the request does not decode, or decodes to the empty
text, `PostMessage` by a participant of the conversation found and `GlobalPost`
by a caller who passed the role check answer 400 `bad body`, leave the store
as it was, make no call to `Broadcast` and send nothing. -/
theorem C18_bad_body_is_bad_request (env : Env) (s : Service) (r : Request)
    (hbody : env.DecodeJSON r.body = none ∨ env.DecodeJSON r.body = some "") :
    (∀ convID conv, ParamInt64 r "id" = some convID →
      s.getConversation env 0 convID = some conv →
      (UserID r = conv.StudentID ∨ UserID r = conv.MentorID) →
      (s.PostMessage env r).resp = httpError "bad body" 400 ∧
      (s.PostMessage env r).svc.db = s.db ∧
      (s.PostMessage env r).broadcasts = [] ∧ (s.PostMessage env r).sends = []) ∧
    (hasChatRole env 0 s.db (UserID r) = some true →
      (s.GlobalPost env r).resp = httpError "bad body" 400 ∧
      (s.GlobalPost env r).svc.db = s.db ∧
      (s.GlobalPost env r).broadcasts = [] ∧ (s.GlobalPost env r).sends = []) := by
  constructor
  · intro convID conv hid hconv hp
    have h : s.PostMessage env r = Outcome.halt s (httpError "bad body" 400) := by
      by_cases h1 : UserID r = conv.StudentID
      · rcases hbody with hb | hb <;>
          simp only [Service.PostMessage, hid, hconv, if_pos h1, hb, if_true]
      · have h2 : UserID r = conv.MentorID := hp.resolve_left h1
        rcases hbody with hb | hb <;>
          simp only [Service.PostMessage, hid, hconv, if_neg h1, if_pos h2, hb, if_true]
    rw [h]
    exact ⟨rfl, rfl, rfl, rfl⟩
  · intro hrole
    have h : s.GlobalPost env r = Outcome.halt s (httpError "bad body" 400) := by
      rcases hbody with hb | hb <;> simp only [Service.GlobalPost, hrole, hb, if_true]
    rw [h]
    exact ⟨rfl, rfl, rfl, rfl⟩

/-- C18 in the scenario: the student of conversation 5 sends a body that does
not decode. -/
theorem C18_bad_body_is_bad_request_witness :
    scenarioEnv.DecodeJSON ({ scenarioRequest 1 with body := "hi" } : Request).body = none ∧
    ((scenarioService.PostMessage scenarioEnv { scenarioRequest 1 with body := "hi" }).resp
        = httpError "bad body" 400 ∧
      (scenarioService.PostMessage scenarioEnv { scenarioRequest 1 with body := "hi" }).svc.db
        = scenarioService.db ∧
      (scenarioService.PostMessage scenarioEnv
        { scenarioRequest 1 with body := "hi" }).broadcasts = [] ∧
      (scenarioService.PostMessage scenarioEnv
        { scenarioRequest 1 with body := "hi" }).sends = []) ∧
    ((scenarioService.GlobalPost scenarioEnv { scenarioRequest 1 with body := "hi" }).resp
        = httpError "bad body" 400 ∧
      (scenarioService.GlobalPost scenarioEnv { scenarioRequest 1 with body := "hi" }).svc.db
        = scenarioService.db ∧
      (scenarioService.GlobalPost scenarioEnv
        { scenarioRequest 1 with body := "hi" }).broadcasts = [] ∧
      (scenarioService.GlobalPost scenarioEnv
        { scenarioRequest 1 with body := "hi" }).sends = []) :=
  have h := C18_bad_body_is_bad_request scenarioEnv scenarioService
    { scenarioRequest 1 with body := "hi" } (Or.inl (by decide))
  ⟨by decide, h.1 5 ⟨5, 1, 2⟩ (by decide) (by decide) (by decide), h.2 (by decide)⟩

/-! ## A conversation that is missing, and one that is asked for -/

theorem getConversation_missing (env : Env) (s : Service) (convID : Int)
    (hnone : s.db.conversations.find? (fun row => row.id = convID) = none) :
    s.getConversation env 0 convID = none := by
  unfold Service.getConversation
  cases env.queryErr 0 <;> simp [hnone]

theorem isMember_missing (env : Env) (s : Service) (convID uid : Int)
    (hnone : s.db.conversations.find? (fun row => row.id = convID) = none) :
    (s.isMember env 0 convID uid).1 = false := by
  unfold Service.isMember
  cases env.queryErr 0 <;> simp [hnone]

/-- The three handlers when the store holds no row for conversation `convID`:
`PostMessage` and `ChatWS` answer 404 `not found`, while `History`, which
drops the error of `isMember`, answers 403 `forbidden`; none of them changes
the store or the hub, broadcasts, sends, upgrades or sends a `SELECT` of
messages. -/
theorem missing_conversation_responses (env : Env) (s : Service) (r : Request)
    (convID : Int)
    (hnone : s.db.conversations.find? (fun row => row.id = convID) = none) :
    (ParamInt64 r "id" = some convID →
      (s.PostMessage env r).resp = httpError "not found" 404 ∧
      (s.PostMessage env r).svc.db = s.db ∧ (s.PostMessage env r).svc.hub = s.hub ∧
      (s.PostMessage env r).broadcasts = [] ∧ (s.PostMessage env r).sends = []) ∧
    (r.query "conversationId" ≠ "" → ParseInt64 (r.query "conversationId") = some convID →
      (s.ChatWS env r).resp = some (httpError "not found" 404) ∧
      (s.ChatWS env r).svc.db = s.db ∧ (s.ChatWS env r).svc.hub = s.hub ∧
      (s.ChatWS env r).events = []) ∧
    (ParamInt64 r "id" = some convID →
      (s.History env r).resp = httpError "forbidden" 403 ∧
      (s.History env r).svc.db = s.db ∧ (s.History env r).svc.hub = s.hub ∧
      (s.History env r).limit = none) := by
  have hconv := getConversation_missing env s convID hnone
  refine ⟨?_, ?_, ?_⟩
  · intro hid
    have h : s.PostMessage env r = Outcome.halt s (httpError "not found" 404) := by
      simp only [Service.PostMessage, hid, hconv]
    rw [h]
    exact ⟨rfl, rfl, rfl, rfl, rfl⟩
  · intro hq hid
    have h : s.ChatWS env r = WSOutcome.halt s (httpError "not found" 404) := by
      simp [Service.ChatWS, hq, hid, hconv]
    rw [h]
    exact ⟨rfl, rfl, rfl, rfl⟩
  · intro hid
    rw [History_eq env s r convID hid, if_pos (isMember_missing env s convID (UserID r) hnone)]
    exact ⟨rfl, rfl, rfl, rfl⟩

/-- C19 fails in the code for `History`: no conversation has id 99 in the
store with messages, and the request of identity 1 to read conversation 99 is
answered 403 `forbidden`, not 404, because `History` drops the error of
`isMember`; for the same id `PostMessage` and `ChatWS` answer 404
`not found`. None of the three writes to the store or joins a room. -/
theorem C19_history_of_missing_conversation_is_forbidden :
    historyService.db.conversations.find? (fun row => row.id = 99) = none ∧
    ParamInt64 (historyRequest 1 "99" "") "id" = some 99 ∧
    ((historyService.History scenarioEnv (historyRequest 1 "99" "")).resp
        = httpError "forbidden" 403 ∧
      (historyService.History scenarioEnv (historyRequest 1 "99" "")).resp.status ≠ 404 ∧
      (historyService.History scenarioEnv (historyRequest 1 "99" "")).svc = historyService) ∧
    ((historyService.PostMessage scenarioEnv
          { scenarioRequest 1 with urlParam := fun _ => "99" }).resp
        = httpError "not found" 404 ∧
      (historyService.PostMessage scenarioEnv
          { scenarioRequest 1 with urlParam := fun _ => "99" }).svc.db = historyService.db ∧
      (historyService.PostMessage scenarioEnv
          { scenarioRequest 1 with urlParam := fun _ => "99" }).broadcasts = []) ∧
    ((historyService.ChatWS socketEnv (socketRequest 1 "99")).resp
        = some (httpError "not found" 404) ∧
      (historyService.ChatWS socketEnv (socketRequest 1 "99")).events = [] ∧
      (historyService.ChatWS socketEnv (socketRequest 1 "99")).svc.hub = historyService.hub) := by
  refine ⟨by decide, by decide, ⟨by decide, by decide, rfl⟩, ⟨by decide, rfl, by decide⟩,
    by decide, by decide, rfl⟩

theorem hasActiveMentorship_true_iff (env : Env) (db : DB) (sid mid : Int) :
    hasActiveMentorship env 0 db sid mid = some true ↔
      env.queryErr 0 = none ∧ (⟨sid, mid, "active"⟩ : MentorshipRow) ∈ db.mentorships := by
  unfold hasActiveMentorship
  cases hq : env.queryErr 0 with
  | some e => simp
  | none =>
    simp only [Option.some.injEq, List.any_eq_true, Bool.and_eq_true, decide_eq_true_eq,
      beq_iff_eq, true_and]
    constructor
    · rintro ⟨⟨a, b, st⟩, hmem, ⟨h1, h2⟩, h3⟩
      simp only at h1 h2 h3
      subst h1 h2 h3
      exact hmem
    · intro hmem
      exact ⟨_, hmem, ⟨rfl, rfl⟩, rfl⟩

theorem upsertConversation_row (env : Env) (db db1 : DB) (sid mid convID : Int)
    (h : upsertConversation env 1 db sid mid = .ok (convID, db1)) :
    (⟨convID, some sid, some mid⟩ : ConversationRow) ∈ db1.conversations := by
  unfold upsertConversation at h
  cases hq : env.queryErr 1 with
  | some e => simp [hq] at h
  | none =>
    simp only [hq] at h
    split at h
    · rename_i row hfind
      have hmem := List.mem_of_find?_eq_some hfind
      have hp := List.find?_some hfind
      simp only [decide_eq_true_eq] at hp
      simp only [Except.ok.injEq, Prod.mk.injEq] at h
      obtain ⟨h1, h2⟩ := h
      subst h1 h2
      have : row = ⟨row.id, some sid, some mid⟩ := by
        cases row
        simp_all
      rw [← this]
      exact hmem
    · simp only [Except.ok.injEq, Prod.mk.injEq] at h
      obtain ⟨h1, h2⟩ := h
      subst h1 h2
      simp

theorem ensurePair_respects (env : Env) (s : Service) (sid mid : Int) :
    RespectsMentorship s sid mid (s.ensurePair env sid mid) := by
  have hiff := hasActiveMentorship_true_iff env s.db sid mid
  cases hrole : hasActiveMentorship env 0 s.db sid mid with
  | none =>
    have h : s.ensurePair env sid mid
        = Outcome.halt s (httpError "no active mentorship" 403) := by
      simp [Service.ensurePair, hrole]
    rw [h]
    exact ⟨fun _ => ⟨rfl, rfl⟩, fun hst => by simp [Outcome.halt, httpError] at hst,
      fun hdb => absurd rfl hdb⟩
  | some b =>
    cases b with
    | false =>
      have h : s.ensurePair env sid mid
          = Outcome.halt s (httpError "no active mentorship" 403) := by
        simp [Service.ensurePair, hrole]
      rw [h]
      exact ⟨fun _ => ⟨rfl, rfl⟩, fun hst => by simp [Outcome.halt, httpError] at hst,
        fun hdb => absurd rfl hdb⟩
    | true =>
      have hact := (hiff.mp hrole).2
      refine ⟨fun hno => absurd hact hno, fun hst => ⟨hact, ?_⟩, fun _ => hact⟩
      cases hup : upsertConversation env 1 s.db sid mid with
      | error e => simp [Service.ensurePair, hrole, hup, Outcome.halt, httpError] at hst
      | ok res =>
        obtain ⟨convID, db1⟩ := res
        have hrow := upsertConversation_row env s.db db1 sid mid convID hup
        refine ⟨convID, ?_, ?_⟩ <;> simp [Service.ensurePair, hrole, hup, hrow]

/-- C20: for a request that names a mentor, the pair is the caller as student
with that mentor; for one that names only a student, that student with the
caller as mentor. `EnsureConversation` answers 200 with a conversation of the
pair, or changes the store, only when the store holds an active mentorship of
exactly that student with that mentor; without one it answers 403 and leaves
the store as it was. -/
theorem C20_conversation_needs_active_mentorship (env : Env) (s : Service) (r : Request) :
    (∀ mentorID studentID, env.DecodeEnsure r.body = some (some mentorID, studentID) →
      RespectsMentorship s (UserID r) mentorID (s.EnsureConversation env r)) ∧
    (∀ studentID, env.DecodeEnsure r.body = some (none, some studentID) →
      RespectsMentorship s studentID (UserID r) (s.EnsureConversation env r)) := by
  constructor
  · intro mentorID studentID hdec
    have h : s.EnsureConversation env r = s.ensurePair env (UserID r) mentorID := by
      simp [Service.EnsureConversation, hdec]
    rw [h]
    exact ensurePair_respects env s _ _
  · intro studentID hdec
    have h : s.EnsureConversation env r = s.ensurePair env studentID (UserID r) := by
      simp [Service.EnsureConversation, hdec]
    rw [h]
    exact ensurePair_respects env s _ _

/-- C20 in the store with mentorships: student 1 asks for a conversation with
mentor 3, with whom the mentorship has ended, and with mentor 2, with whom it
is active. -/
theorem C20_conversation_needs_active_mentorship_witness :
    (⟨1, 3, "active"⟩ : MentorshipRow) ∉ mentorshipService.db.mentorships ∧
    (mentorshipService.EnsureConversation (ensureEnv 3) (scenarioRequest 1)).resp
      = httpError "no active mentorship" 403 ∧
    (mentorshipService.EnsureConversation (ensureEnv 3) (scenarioRequest 1)).svc.db
      = mentorshipService.db ∧
    (mentorshipService.EnsureConversation (ensureEnv 2) (scenarioRequest 1)).resp.status = 200 ∧
    (⟨1, 2, "active"⟩ : MentorshipRow) ∈ mentorshipService.db.mentorships :=
  have h3 := (C20_conversation_needs_active_mentorship (ensureEnv 3) mentorshipService
    (scenarioRequest 1)).1 3 none rfl
  have h2 := (C20_conversation_needs_active_mentorship (ensureEnv 2) mentorshipService
    (scenarioRequest 1)).1 2 none rfl
  ⟨by decide, (h3.1 (by decide)).1, (h3.1 (by decide)).2, by decide,
    (h2.2.1 (by decide)).1⟩

theorem EnsureConversation_example :
    (mentorshipService.EnsureConversation (ensureEnv 2) (scenarioRequest 1)).resp
      = JSON 200 [("conversationId", .int 5)] ∧
    (mentorshipService.EnsureConversation (ensureEnv 2) (scenarioRequest 1)).svc.db
      = mentorshipService.db ∧
    (mentorshipService.EnsureConversation (ensureEnv 2) (scenarioRequest 2)).resp
      = httpError "no active mentorship" 403 ∧
    (mentorshipService.EnsureConversation
        { scenarioEnv with DecodeEnsure := fun _ => some (none, some 1) }
        (scenarioRequest 2)).resp
      = JSON 200 [("conversationId", .int 5)] ∧
    (Service.EnsureConversation (ensureEnv 2)
        { db := { mentorshipDB with conversations := [] }, hub := NewHub }
        (scenarioRequest 1)).svc.db.conversations = [⟨42, some 1, some 2⟩] ∧
    (mentorshipService.EnsureConversation scenarioEnv (scenarioRequest 1)).resp
      = httpError "bad input" 400 := by
  decide

/-! ## Room keys -/

theorem digitChar_toNat (k : Nat) (hk : k < 10) : (Nat.digitChar k).toNat - 48 = k := by
  interval_cases k <;> rfl

theorem digitChar_isDigit (k : Nat) (hk : k < 10) : (Nat.digitChar k).isDigit = true := by
  interval_cases k <;> rfl

theorem decimalDigits_isDigit (fuel : Nat) :
    ∀ n, ∀ c ∈ decimalDigits fuel n, c.isDigit = true := by
  induction fuel with
  | zero => intro n c hc; simp [decimalDigits] at hc
  | succ fuel ih =>
    intro n c hc
    unfold decimalDigits at hc
    split at hc
    · rename_i hlt
      simp only [List.mem_singleton] at hc
      rw [hc]
      exact digitChar_isDigit n hlt
    · rcases List.mem_append.mp hc with h | h
      · exact ih _ c h
      · simp only [List.mem_singleton] at h
        rw [h]
        exact digitChar_isDigit _ (Nat.mod_lt _ (by decide))

theorem decimalDigits_value (fuel : Nat) :
    ∀ n, n < 10 ^ fuel →
      (decimalDigits fuel n).foldl (fun acc c => acc * 10 + (c.toNat - 48)) 0 = n := by
  induction fuel with
  | zero =>
    intro n hn
    have : n = 0 := by simpa using hn
    subst this
    rfl
  | succ fuel ih =>
    intro n hn
    unfold decimalDigits
    split
    · rename_i hlt
      simp [digitChar_toNat n hlt]
    · have hdiv : n / 10 < 10 ^ fuel := by
        apply Nat.div_lt_of_lt_mul
        rw [pow_succ] at hn
        omega
      rw [List.foldl_append, ih _ hdiv]
      simp only [List.foldl_cons, List.foldl_nil]
      rw [digitChar_toNat _ (Nat.mod_lt _ (by decide))]
      omega

theorem decimalDigits_injective (a b : Nat)
    (h : decimalDigits (a + 1) a = decimalDigits (b + 1) b) : a = b := by
  have ha := decimalDigits_value (a + 1) a (Nat.lt_pow_self (by decide) _ |>.trans_le
    (Nat.pow_le_pow_right (by decide) (Nat.le_succ a)))
  have hb := decimalDigits_value (b + 1) b (Nat.lt_pow_self (by decide) _ |>.trans_le
    (Nat.pow_le_pow_right (by decide) (Nat.le_succ b)))
  rw [h] at ha
  exact ha.symm.trans hb

theorem FormatInt_injective (a b : Int) (h : FormatInt a = FormatInt b) : a = b := by
  have h := congrArg String.data h
  simp only [FormatInt] at h
  by_cases ha : a < 0 <;> by_cases hb : b < 0
  · simp only [ha, hb, if_true, List.cons.injEq, true_and] at h
    have := decimalDigits_injective _ _ h
    omega
  · simp only [ha, hb, if_true, if_false] at h
    have hmem : '-' ∈ decimalDigits (b.natAbs + 1) b.natAbs := by
      rw [← h]
      exact List.mem_cons_self _ _
    have := decimalDigits_isDigit _ _ _ hmem
    exact absurd this (by decide)
  · simp only [ha, hb, if_true, if_false] at h
    have hmem : '-' ∈ decimalDigits (a.natAbs + 1) a.natAbs := by
      rw [h]
      exact List.mem_cons_self _ _
    have := decimalDigits_isDigit _ _ _ hmem
    exact absurd this (by decide)
  · simp only [ha, hb, if_false] at h
    have := decimalDigits_injective _ _ h
    omega

theorem roomName_injective (a b : Int) (h : roomName a = roomName b) : a = b := by
  unfold roomName at h
  apply FormatInt_injective
  have hd := congrArg String.data h
  simp only [String.data_append] at hd
  exact String.ext (List.append_cancel_left hd)

theorem roomName_ne_global (a : Int) : roomName a ≠ "global" := by
  unfold roomName
  intro h
  have hd := congrArg String.data h
  have h1 : "conv:".data = ['c', 'o', 'n', 'v', ':'] := rfl
  have h2 : "global".data = ['g', 'l', 'o', 'b', 'a', 'l'] := rfl
  rw [String.data_append, h1, h2] at hd
  simp at hd

theorem PostMessage_broadcast_room (env : Env) (s : Service) (r : Request) (convID : Int)
    (hid : ParamInt64 r "id" = some convID) :
    ∀ room ∈ (s.PostMessage env r).broadcasts.map Prod.fst, room = roomName convID := by
  intro room hroom
  simp only [Service.PostMessage, hid] at hroom
  repeat' split at hroom
  all_goals simp [Outcome.halt] at hroom
  all_goals exact hroom

/-- C22: `roomName(id)` is `conv:` followed by the decimal rendering of `id`;
two different ids have different room names, and no room name is `global`; so
the room to which `PostMessage` broadcasts for conversation `convID` is neither
the room of another conversation nor the global room. -/
theorem C22_room_name_is_collision_free :
    (∀ id : Int, roomName id = "conv:" ++ FormatInt id) ∧
    (∀ a b : Int, a ≠ b → roomName a ≠ roomName b) ∧
    (∀ id : Int, roomName id ≠ "global") ∧
    (∀ (env : Env) (s : Service) (r : Request) (convID : Int),
      ParamInt64 r "id" = some convID →
      ∀ room ∈ (s.PostMessage env r).broadcasts.map Prod.fst,
        room = roomName convID ∧ room ≠ "global" ∧
        ∀ other : Int, other ≠ convID → room ≠ roomName other) := by
  refine ⟨fun _ => rfl, fun a b hne h => hne (roomName_injective a b h), roomName_ne_global, ?_⟩
  intro env s r convID hid room hroom
  have h := PostMessage_broadcast_room env s r convID hid room hroom
  subst h
  exact ⟨rfl, roomName_ne_global convID,
    fun other hne heq => hne (roomName_injective _ _ heq).symm⟩

/-- C22 at conversations 5 and 6, and at 1 and -1. -/
theorem C22_room_name_is_collision_free_witness :
    roomName 5 = "conv:5" ∧ roomName 6 = "conv:6" ∧ roomName (-1) = "conv:-1" ∧
    roomName 5 ≠ roomName 6 ∧ roomName 1 ≠ roomName (-1) ∧ roomName 5 ≠ "global" :=
  ⟨by decide, by decide, by decide,
    C22_room_name_is_collision_free.2.1 5 6 (by decide),
    C22_room_name_is_collision_free.2.1 1 (-1) (by decide),
    C22_room_name_is_collision_free.2.2.1 5⟩

/-! ## Frames on the live channel -/

theorem readLoop_no_error (frames : List Frame) :
    readLoop (frames.map Except.ok) = (frames, false) := by
  induction frames with
  | nil => rfl
  | cons f frames ih => simp [readLoop, ih]

theorem serveWS_frames_dropped (env : Env) (s : Service) (room : String) (c : Conn)
    (frames : List Frame) (tail : List (Except String Frame)) (closed : Bool)
    (hup : env.Upgrade = .ok c)
    (hreads : env.reads = frames.map Except.ok ++ tail)
    (htail : (tail = [] ∧ closed = false) ∨
      ∃ e rest, tail = Except.error e :: rest ∧ closed = true) :
    FramesDropped s room c frames closed (s.serveWS env room) := by
  rcases htail with ⟨ht, hc⟩ | ⟨e, rest, ht, hc⟩
  · subst ht hc
    rw [List.append_nil] at hreads
    simp [FramesDropped, Service.serveWS, hup, hreads, readLoop_no_error]
  · subst ht hc
    simp [FramesDropped, Service.serveWS, hup, hreads, readLoop_until_error]

/-- C24: when the upgrade yields connection `c` and the reads so far deliver
`frames`, followed by nothing yet or by a failed read, a run of `ChatWS` that
passed its check, and a run of `GlobalWS` that passed its own, drop the
frames: the store is as before, no event lies between the `Join` and the
`Leave` but the reads, and the hub changes only by that `Join` and, after the
failed read, that `Leave`. -/
theorem C24_frames_are_dropped (env : Env) (s : Service) (r : Request) (c : Conn)
    (frames : List Frame) (tail : List (Except String Frame)) (closed : Bool)
    (hup : env.Upgrade = .ok c)
    (hreads : env.reads = frames.map Except.ok ++ tail)
    (htail : (tail = [] ∧ closed = false) ∨
      ∃ e rest, tail = Except.error e :: rest ∧ closed = true) :
    (∀ convID conv, r.query "conversationId" ≠ "" →
      ParseInt64 (r.query "conversationId") = some convID →
      s.getConversation env 0 convID = some conv →
      (UserID r = conv.StudentID ∨ UserID r = conv.MentorID) →
      FramesDropped s (roomName convID) c frames closed (s.ChatWS env r)) ∧
    (hasChatRole env 0 s.db (UserID r) = some true →
      FramesDropped s "global" c frames closed (s.GlobalWS env r)) := by
  constructor
  · intro convID conv hq hid hconv hp
    have h : s.ChatWS env r = s.serveWS env (roomName convID) := by
      have hp2 : ¬ (UserID r ≠ conv.StudentID ∧ UserID r ≠ conv.MentorID) := by
        rintro ⟨h1, h2⟩
        rcases hp with h | h
        · exact h1 h
        · exact h2 h
      simp only [Service.ChatWS, hq, hid, hconv, hp2, if_false]
    rw [h]
    exact serveWS_frames_dropped env s _ c frames tail closed hup hreads htail
  · intro hrole
    rcases GlobalWS_cases env s r with ⟨hne, -⟩ | ⟨-, h⟩
    · exact absurd hrole hne
    · rw [h]
      exact serveWS_frames_dropped env s _ c frames tail closed hup hreads htail

/-- C24 in the scenario: the socket of the student of conversation 5 delivers
two frames, the second with the text of a chat message, and then fails. -/
theorem C24_frames_are_dropped_witness :
    socketEnv.Upgrade = .ok 9 ∧
    socketEnv.reads
      = [(⟨1, "ping"⟩ : Frame), ⟨1, "hi"⟩].map Except.ok ++ [Except.error "unexpected EOF"] ∧
    FramesDropped scenarioService (roomName 5) 9 [⟨1, "ping"⟩, ⟨1, "hi"⟩] true
      (scenarioService.ChatWS socketEnv (socketRequest 1 "5")) ∧
    FramesDropped scenarioService "global" 9 [⟨1, "ping"⟩, ⟨1, "hi"⟩] true
      (scenarioService.GlobalWS socketEnv (socketRequest 1 "5")) :=
  have h := C24_frames_are_dropped socketEnv scenarioService (socketRequest 1 "5") 9
    [⟨1, "ping"⟩, ⟨1, "hi"⟩] [Except.error "unexpected EOF"] true rfl rfl
    (Or.inr ⟨"unexpected EOF", [], rfl, rfl⟩)
  ⟨rfl, rfl, h.1 5 ⟨5, 1, 2⟩ (by decide) (by decide) (by decide) (by decide),
    h.2 (by decide)⟩

/-! ## Whose conversation, whose message -/

theorem upsertConversation_conversations (env : Env) (db db1 : DB) (sid mid convID : Int)
    (h : upsertConversation env 1 db sid mid = .ok (convID, db1)) :
    db1 = db ∨
    db1 = { db with conversations := db.conversations ++ [⟨env.nextID, some sid, some mid⟩] } := by
  unfold upsertConversation at h
  cases hq : env.queryErr 1 with
  | some e => simp [hq] at h
  | none =>
    simp only [hq] at h
    split at h
    · simp only [Except.ok.injEq, Prod.mk.injEq] at h
      exact Or.inl h.2.symm
    · simp only [Except.ok.injEq, Prod.mk.injEq] at h
      exact Or.inr h.2.symm

/-- The store after `ensurePair` is the store before, or has one more
conversation, of `sid` with `mid`. -/
theorem ensurePair_db (env : Env) (s : Service) (sid mid : Int) :
    (s.ensurePair env sid mid).svc.db = s.db ∨
    (s.ensurePair env sid mid).svc.db
      = { s.db with
          conversations := s.db.conversations ++ [⟨env.nextID, some sid, some mid⟩] } := by
  cases hrole : hasActiveMentorship env 0 s.db sid mid with
  | none => exact Or.inl (by simp [Service.ensurePair, hrole, Outcome.halt])
  | some b =>
    cases b with
    | false => exact Or.inl (by simp [Service.ensurePair, hrole, Outcome.halt])
    | true =>
      cases hup : upsertConversation env 1 s.db sid mid with
      | error e => exact Or.inl (by simp [Service.ensurePair, hrole, hup, Outcome.halt])
      | ok res =>
        obtain ⟨convID, db1⟩ := res
        rcases upsertConversation_conversations env s.db db1 sid mid convID hup with h | h
        · exact Or.inl (by simp [Service.ensurePair, hrole, hup, h])
        · exact Or.inr (by simp [Service.ensurePair, hrole, hup, h])

/-- The conversation whose id `ensurePair` answers with is one of `sid` with
`mid`, and the store holds it afterwards. -/
theorem ensurePair_answer (env : Env) (s : Service) (sid mid convID : Int)
    (h : (s.ensurePair env sid mid).resp = JSON 200 [("conversationId", .int convID)]) :
    (⟨convID, some sid, some mid⟩ : ConversationRow)
      ∈ (s.ensurePair env sid mid).svc.db.conversations := by
  have hst : (s.ensurePair env sid mid).resp.status = 200 := by rw [h]; rfl
  obtain ⟨-, c, hc, hmem⟩ := (ensurePair_respects env s sid mid).2.1 hst
  rw [hc] at h
  have : c = convID := by simpa [JSON] using h
  rw [← this]
  exact hmem

/-- What `ensurePair` gives to a caller who is `sid` or `mid`. -/
theorem ensurePair_of_caller (env : Env) (s : Service) (sid mid uid : Int)
    (hcaller : uid = sid ∨ uid = mid) :
    (∀ convID, (s.ensurePair env sid mid).resp = JSON 200 [("conversationId", .int convID)] →
      ∃ row ∈ (s.ensurePair env sid mid).svc.db.conversations,
        row.id = convID ∧ (row.student_id = some uid ∨ row.mentor_id = some uid)) ∧
    (∀ row ∈ (s.ensurePair env sid mid).svc.db.conversations, row ∉ s.db.conversations →
      row.student_id = some uid ∨ row.mentor_id = some uid) := by
  constructor
  · intro convID h
    refine ⟨_, ensurePair_answer env s sid mid convID h, rfl, ?_⟩
    rcases hcaller with h1 | h1
    · exact Or.inl (by rw [h1])
    · exact Or.inr (by rw [h1])
  · intro row hrow hnew
    rcases ensurePair_db env s sid mid with h | h
    · rw [h] at hrow
      exact absurd hrow hnew
    · rw [h] at hrow
      simp only [List.mem_append, List.mem_singleton] at hrow
      rcases hrow with h2 | h2
      · exact absurd h2 hnew
      · subst h2
        rcases hcaller with h1 | h1
        · exact Or.inl (by rw [h1])
        · exact Or.inr (by rw [h1])

/-- C27: for a request that names a mentor, `EnsureConversation` runs the
mentorship check and the upsert for the caller as student with that mentor,
whatever student the request names as well; for a request that names only a
student, for that student with the caller as mentor. So the conversation whose
id it answers with has the caller as student or as mentor, and so has every
conversation it adds to the store. -/
theorem C27_pair_contains_the_caller (env : Env) (s : Service) (r : Request) :
    (∀ mentorID studentID, env.DecodeEnsure r.body = some (some mentorID, studentID) →
      s.EnsureConversation env r = s.ensurePair env (UserID r) mentorID) ∧
    (∀ studentID, env.DecodeEnsure r.body = some (none, some studentID) →
      s.EnsureConversation env r = s.ensurePair env studentID (UserID r)) ∧
    (∀ convID, (s.EnsureConversation env r).resp = JSON 200 [("conversationId", .int convID)] →
      ∃ row ∈ (s.EnsureConversation env r).svc.db.conversations,
        row.id = convID ∧
        (row.student_id = some (UserID r) ∨ row.mentor_id = some (UserID r))) ∧
    (∀ row ∈ (s.EnsureConversation env r).svc.db.conversations, row ∉ s.db.conversations →
      row.student_id = some (UserID r) ∨ row.mentor_id = some (UserID r)) := by
  have hm : ∀ mentorID studentID, env.DecodeEnsure r.body = some (some mentorID, studentID) →
      s.EnsureConversation env r = s.ensurePair env (UserID r) mentorID := by
    intro mentorID studentID hdec
    simp [Service.EnsureConversation, hdec]
  have hs : ∀ studentID, env.DecodeEnsure r.body = some (none, some studentID) →
      s.EnsureConversation env r = s.ensurePair env studentID (UserID r) := by
    intro studentID hdec
    simp [Service.EnsureConversation, hdec]
  have hcases : (∃ resp, resp.status = 400 ∧ s.EnsureConversation env r = Outcome.halt s resp) ∨
      ∃ sid mid, (UserID r = sid ∨ UserID r = mid) ∧
        s.EnsureConversation env r = s.ensurePair env sid mid := by
    cases hdec : env.DecodeEnsure r.body with
    | none =>
      exact Or.inl ⟨httpError "bad input" 400, rfl, by simp [Service.EnsureConversation, hdec]⟩
    | some p =>
      obtain ⟨m, st⟩ := p
      cases m with
      | some mentorID => exact Or.inr ⟨_, _, Or.inl rfl, hm mentorID st hdec⟩
      | none =>
        cases st with
        | none =>
          exact Or.inl ⟨httpError "bad input" 400, rfl,
            by simp [Service.EnsureConversation, hdec]⟩
        | some studentID => exact Or.inr ⟨_, _, Or.inr rfl, hs studentID hdec⟩
  refine ⟨hm, hs, ?_, ?_⟩
  · intro convID h
    rcases hcases with ⟨resp, hst, heq⟩ | ⟨sid, mid, hcaller, heq⟩
    · rw [heq] at h
      have : resp.status = 200 := by
        have h2 : (Outcome.halt s resp).resp = resp := rfl
        rw [h2] at h
        rw [h]
        rfl
      omega
    · rw [heq] at h ⊢
      exact (ensurePair_of_caller env s sid mid (UserID r) hcaller).1 convID h
  · intro row hrow hnew
    rcases hcases with ⟨resp, -, heq⟩ | ⟨sid, mid, hcaller, heq⟩
    · rw [heq] at hrow
      exact absurd hrow hnew
    · rw [heq] at hrow
      exact (ensurePair_of_caller env s sid mid (UserID r) hcaller).2 row hrow hnew

/-- C27 in the store with mentorships: identity 1 names mentor 2 and, beside
it, student 3; the request is served for the pair of 1 with 2. -/
theorem C27_pair_contains_the_caller_witness :
    ({ scenarioEnv with DecodeEnsure := fun _ => some (some 2, some 3) } : Env).DecodeEnsure
        (scenarioRequest 1).body = some (some 2, some 3) ∧
    mentorshipService.EnsureConversation
        { scenarioEnv with DecodeEnsure := fun _ => some (some 2, some 3) } (scenarioRequest 1)
      = mentorshipService.ensurePair
        { scenarioEnv with DecodeEnsure := fun _ => some (some 2, some 3) }
        (UserID (scenarioRequest 1)) 2 ∧
    (mentorshipService.EnsureConversation
        { scenarioEnv with DecodeEnsure := fun _ => some (some 2, some 3) }
        (scenarioRequest 1)).resp = JSON 200 [("conversationId", .int 5)] :=
  ⟨rfl,
    (C27_pair_contains_the_caller
      { scenarioEnv with DecodeEnsure := fun _ => some (some 2, some 3) } mentorshipService
      (scenarioRequest 1)).1 2 (some 3) rfl,
    by decide⟩

/-- The run of `PostMessage` depends on the request through the caller, the
parameter `id` and what the body decodes to. -/
theorem PostMessage_congr (env : Env) (s : Service) (r1 r2 : Request)
    (huid : UserID r1 = UserID r2) (hid : r1.urlParam "id" = r2.urlParam "id")
    (hbody : env.DecodeJSON r1.body = env.DecodeJSON r2.body) :
    s.PostMessage env r1 = s.PostMessage env r2 := by
  simp only [Service.PostMessage, ParamInt64, huid, hid, hbody]

/-- The run of `GlobalPost` depends on the request through the caller and what
the body decodes to. -/
theorem GlobalPost_congr (env : Env) (s : Service) (r1 r2 : Request)
    (huid : UserID r1 = UserID r2)
    (hbody : env.DecodeJSON r1.body = env.DecodeJSON r2.body) :
    s.GlobalPost env r1 = s.GlobalPost env r2 := by
  simp only [Service.GlobalPost, huid, hbody]

/-- C23: in a run of `PostMessage` or `GlobalPost` that answers 200 the author
of the committed row and the `authorId` of the payload are the identity the
middleware stored for the request, and the id of the row and of the payload is
the one the store assigned. Two requests of one identity for one room whose
bodies decode to the same `Body` field, whatever else the bodies hold, have
the same run: the same row, the same payload, the same response. -/
theorem C23_row_and_payload_ignore_client_fields (env : Env) (s : Service) (r1 r2 : Request)
    (huid : UserID r1 = UserID r2) (hid : r1.urlParam "id" = r2.urlParam "id")
    (hbody : env.DecodeJSON r1.body = env.DecodeJSON r2.body) :
    s.PostMessage env r1 = s.PostMessage env r2 ∧
    s.GlobalPost env r1 = s.GlobalPost env r2 ∧
    ((s.PostMessage env r1).resp.status = 200 →
      ∃ row payload,
        (s.PostMessage env r1).svc.db.messages = s.db.messages ++ [row] ∧
        (s.PostMessage env r2).svc.db.messages = s.db.messages ++ [row] ∧
        (s.PostMessage env r1).resp = JSON 200 payload ∧
        (s.PostMessage env r2).resp = JSON 200 payload ∧
        row.author_id = UserID r1 ∧ row.id = env.nextID ∧
        payload.get "authorId" = some (.int (UserID r1)) ∧
        payload.get "id" = some (.int env.nextID)) ∧
    ((s.GlobalPost env r1).resp.status = 200 →
      ∃ row payload,
        (s.GlobalPost env r1).svc.db.global_messages = s.db.global_messages ++ [row] ∧
        (s.GlobalPost env r2).svc.db.global_messages = s.db.global_messages ++ [row] ∧
        (s.GlobalPost env r1).resp = JSON 200 payload ∧
        (s.GlobalPost env r2).resp = JSON 200 payload ∧
        row.author_id = UserID r1 ∧ row.id = env.nextID ∧
        payload.get "authorId" = some (.int (UserID r1)) ∧
        payload.get "id" = some (.int env.nextID)) := by
  have hP := PostMessage_congr env s r1 r2 huid hid hbody
  have hG := GlobalPost_congr env s r1 r2 huid hbody
  refine ⟨hP, hG, ?_, ?_⟩
  · intro hok
    rw [← hP]
    obtain ⟨convID, conv, atype, body, hid1, hconv, hat, hdec, hne, hq⟩ :=
      PostMessage_200 env s r1 hok
    rw [PostMessage_ok env s r1 convID conv atype body hid1 hconv hat hdec hne hq]
    exact ⟨_, _, rfl, rfl, rfl, rfl, rfl, rfl, by simp [Payload.get], by simp [Payload.get]⟩
  · intro hok
    rw [← hG]
    obtain ⟨body, hrole, hdec, hne, hq⟩ := GlobalPost_200 env s r1 hok
    rw [GlobalPost_ok env s r1 body hrole hdec hne hq]
    exact ⟨_, _, rfl, rfl, rfl, rfl, rfl, rfl, by simp [Payload.get], by simp [Payload.get]⟩

/-! ## Provisioning a conversation more than once -/

theorem find?_eq_head?_filter {α : Type} (p : α → Bool) (l : List α) :
    l.find? p = (l.filter p).head? := by
  induction l with
  | nil => rfl
  | cons a l ih =>
    cases h : p a
    · simp only [List.find?_cons, List.filter_cons, h, Bool.false_eq_true, if_false]
      exact ih
    · simp [List.find?_cons, List.filter_cons, h]

theorem conversationsOf_row (db : DB) (sid mid : Int) (row : ConversationRow)
    (h : row ∈ db.conversationsOf sid mid) : row = ⟨row.id, some sid, some mid⟩ := by
  unfold DB.conversationsOf at h
  have hp := (List.mem_filter.mp h).2
  simp only [decide_eq_true_eq] at hp
  obtain ⟨id, st, mt⟩ := row
  obtain ⟨h1, h2⟩ := hp
  simp only at h1 h2
  subst h1 h2
  rfl

/-- What the upsert does to a store with at most one conversation of the pair. -/
theorem upsertConversation_unique (env : Env) (db db1 : DB) (sid mid convID : Int)
    (huniq : (db.conversationsOf sid mid).length ≤ 1)
    (h : upsertConversation env 1 db sid mid = .ok (convID, db1)) :
    db1.conversationsOf sid mid = [⟨convID, some sid, some mid⟩] ∧
    (∀ c, db.conversationsOf sid mid = [⟨c, some sid, some mid⟩] → convID = c ∧ db1 = db) := by
  unfold upsertConversation at h
  cases hq : env.queryErr 1 with
  | some e => simp [hq] at h
  | none =>
    simp only [hq] at h
    rw [find?_eq_head?_filter] at h
    change (match (db.conversationsOf sid mid).head? with
      | some row => Except.ok (row.id, db)
      | none => Except.ok (env.nextID,
          { db with conversations := db.conversations ++ [⟨env.nextID, some sid, some mid⟩] }))
      = Except.ok (convID, db1) at h
    cases hl : db.conversationsOf sid mid with
    | nil =>
      simp only [hl, List.head?_nil, Except.ok.injEq, Prod.mk.injEq] at h
      obtain ⟨h1, h2⟩ := h
      subst h1 h2
      refine ⟨?_, fun c hc => by simp at hc⟩
      unfold DB.conversationsOf at hl ⊢
      rw [List.filter_append, hl]
      simp
    | cons row rest =>
      have hrest : rest = [] := by
        rw [hl] at huniq
        simpa using huniq
      subst hrest
      simp only [hl, List.head?_cons, Except.ok.injEq, Prod.mk.injEq] at h
      obtain ⟨h1, h2⟩ := h
      subst h1 h2
      have hrow := conversationsOf_row db sid mid row (by rw [hl]; exact List.mem_singleton_self _)
      refine ⟨by rw [hl, ← hrow], fun c hc => ⟨?_, rfl⟩⟩
      have : row = ⟨c, some sid, some mid⟩ := by simpa using hc
      rw [this]

/-- One run of `ensurePair` on a store with at most one conversation of the
pair. -/
theorem ensurePair_unique (env : Env) (s : Service) (sid mid : Int)
    (huniq : (s.db.conversationsOf sid mid).length ≤ 1) :
    ((s.ensurePair env sid mid).svc.db.conversationsOf sid mid).length ≤ 1 ∧
    ((s.ensurePair env sid mid).resp.status ≠ 200 → (s.ensurePair env sid mid).svc.db = s.db) ∧
    ((s.ensurePair env sid mid).resp.status = 200 →
      ∃ c, (s.ensurePair env sid mid).resp = JSON 200 [("conversationId", .int c)] ∧
        (s.ensurePair env sid mid).svc.db.conversationsOf sid mid = [⟨c, some sid, some mid⟩] ∧
        ∀ c0, s.db.conversationsOf sid mid = [⟨c0, some sid, some mid⟩] →
          c = c0 ∧ (s.ensurePair env sid mid).svc.db = s.db) := by
  have hhalt : ∀ resp : Response, resp.status ≠ 200 →
      s.ensurePair env sid mid = Outcome.halt s resp →
      ((s.ensurePair env sid mid).svc.db.conversationsOf sid mid).length ≤ 1 ∧
      ((s.ensurePair env sid mid).resp.status ≠ 200 →
        (s.ensurePair env sid mid).svc.db = s.db) ∧
      ((s.ensurePair env sid mid).resp.status = 200 →
        ∃ c, (s.ensurePair env sid mid).resp = JSON 200 [("conversationId", .int c)] ∧
          (s.ensurePair env sid mid).svc.db.conversationsOf sid mid
            = [⟨c, some sid, some mid⟩] ∧
          ∀ c0, s.db.conversationsOf sid mid = [⟨c0, some sid, some mid⟩] →
            c = c0 ∧ (s.ensurePair env sid mid).svc.db = s.db) := by
    intro resp hne heq
    rw [heq]
    exact ⟨huniq, fun _ => rfl, fun h => absurd h hne⟩
  cases hrole : hasActiveMentorship env 0 s.db sid mid with
  | none =>
    exact hhalt (httpError "no active mentorship" 403) (by decide)
      (by simp [Service.ensurePair, hrole])
  | some b =>
    cases b with
    | false =>
      exact hhalt (httpError "no active mentorship" 403) (by decide)
        (by simp [Service.ensurePair, hrole])
    | true =>
      cases hup : upsertConversation env 1 s.db sid mid with
      | error e =>
        exact hhalt (httpError e 500) (by simp [httpError])
          (by simp [Service.ensurePair, hrole, hup])
      | ok res =>
        obtain ⟨convID, db1⟩ := res
        obtain ⟨h1, h2⟩ := upsertConversation_unique env s.db db1 sid mid convID huniq hup
        have heq : s.ensurePair env sid mid =
            { resp := JSON 200 [("conversationId", .int convID)]
              svc := { db := db1, hub := s.hub }
              broadcasts := []
              sends := [] } := by
          simp [Service.ensurePair, hrole, hup]
        rw [heq]
        refine ⟨by simp [h1], fun h => absurd rfl h, fun _ => ⟨convID, rfl, h1, h2⟩⟩

theorem EnsureConversation_of_asks (sid mid : Int) (env : Env) (s : Service) (r : Request)
    (h : AsksForPair sid mid env r) :
    s.EnsureConversation env r = s.ensurePair env sid mid := by
  rcases h with ⟨huid, st, hdec⟩ | ⟨huid, hdec⟩
  · simp [Service.EnsureConversation, hdec, huid]
  · simp [Service.EnsureConversation, hdec, huid]

/-- Runs for a pair whose conversation `c` the store holds answer with `c` and
leave the conversations of the pair as they were. -/
theorem ensureCalls_existing (sid mid c : Int) (calls : List (Env × Request)) :
    ∀ s : Service, (∀ call ∈ calls, AsksForPair sid mid call.1 call.2) →
      s.db.conversationsOf sid mid = [⟨c, some sid, some mid⟩] →
      (∀ resp ∈ (s.ensureCalls calls).2, resp.status = 200 →
        resp = JSON 200 [("conversationId", .int c)]) ∧
      (s.ensureCalls calls).1.db.conversationsOf sid mid = [⟨c, some sid, some mid⟩] := by
  induction calls with
  | nil =>
    intro s _ hc
    exact ⟨fun resp h => by simp [Service.ensureCalls] at h, hc⟩
  | cons call calls ih =>
    intro s hcalls hc
    obtain ⟨env, r⟩ := call
    have hask := hcalls (env, r) (List.mem_cons_self _ _)
    have heq := EnsureConversation_of_asks sid mid env s r hask
    have huniq : (s.db.conversationsOf sid mid).length ≤ 1 := by simp [hc]
    obtain ⟨-, hfail, hok⟩ := ensurePair_unique env s sid mid huniq
    have hdb : (s.ensurePair env sid mid).svc.db = s.db := by
      by_cases hst : (s.ensurePair env sid mid).resp.status = 200
      · obtain ⟨c1, -, -, h3⟩ := hok hst
        exact (h3 c hc).2
      · exact hfail hst
    have hrest := ih (s.ensurePair env sid mid).svc
      (fun call hmem => hcalls call (List.mem_cons_of_mem _ hmem)) (by rw [hdb]; exact hc)
    simp only [Service.ensureCalls, heq]
    refine ⟨?_, hrest.2⟩
    intro resp hmem hst
    rcases List.mem_cons.mp hmem with h | h
    · subst h
      obtain ⟨c1, h1, -, h3⟩ := hok hst
      rw [h1, (h3 c hc).1]
    · exact hrest.1 resp h hst

/-- C21: on a store that holds at most one conversation of student `sid` with
mentor `mid`, any sequence of runs of `EnsureConversation` that ask for that
pair, by the student or by the mentor, answers every successful one with the
same conversation id, and after a successful one the store holds exactly one
conversation of the pair, the one with that id. -/
theorem C21_ensure_conversation_is_idempotent (sid mid : Int) (calls : List (Env × Request)) :
    ∀ s : Service, (∀ call ∈ calls, AsksForPair sid mid call.1 call.2) →
      (s.db.conversationsOf sid mid).length ≤ 1 →
      ∃ convID,
        (∀ resp ∈ (s.ensureCalls calls).2, resp.status = 200 →
          resp = JSON 200 [("conversationId", .int convID)]) ∧
        ((∃ resp ∈ (s.ensureCalls calls).2, resp.status = 200) →
          (s.ensureCalls calls).1.db.conversationsOf sid mid
            = [⟨convID, some sid, some mid⟩]) := by
  induction calls with
  | nil =>
    intro s _ _
    exact ⟨0, fun resp h => by simp [Service.ensureCalls] at h,
      fun ⟨resp, h, _⟩ => by simp [Service.ensureCalls] at h⟩
  | cons call calls ih =>
    intro s hcalls huniq
    obtain ⟨env, r⟩ := call
    have hask := hcalls (env, r) (List.mem_cons_self _ _)
    have heq := EnsureConversation_of_asks sid mid env s r hask
    have hrestcalls : ∀ call ∈ calls, AsksForPair sid mid call.1 call.2 :=
      fun call hmem => hcalls call (List.mem_cons_of_mem _ hmem)
    obtain ⟨huniq1, hfail, hok⟩ := ensurePair_unique env s sid mid huniq
    by_cases hst : (s.ensurePair env sid mid).resp.status = 200
    · obtain ⟨c, h1, h2, -⟩ := hok hst
      have hrest := ensureCalls_existing sid mid c calls (s.ensurePair env sid mid).svc
        hrestcalls h2
      refine ⟨c, ?_, fun _ => ?_⟩
      · intro resp hmem hst1
        simp only [Service.ensureCalls, heq] at hmem
        rcases List.mem_cons.mp hmem with h | h
        · rw [h, h1]
        · exact hrest.1 resp h hst1
      · simp only [Service.ensureCalls, heq]
        exact hrest.2
    · obtain ⟨c, hc1, hc2⟩ := ih (s.ensurePair env sid mid).svc hrestcalls huniq1
      refine ⟨c, ?_, ?_⟩
      · intro resp hmem hst1
        simp only [Service.ensureCalls, heq] at hmem
        rcases List.mem_cons.mp hmem with h | h
        · rw [h] at hst1
          exact absurd hst1 hst
        · exact hc1 resp h hst1
      · rintro ⟨resp, hmem, hst1⟩
        simp only [Service.ensureCalls, heq] at hmem ⊢
        rcases List.mem_cons.mp hmem with h | h
        · rw [h] at hst1
          exact absurd hst1 hst
        · exact hc2 ⟨resp, h, hst1⟩

/-- C21 at first contact: the student of the active mentorship of 1 with 2
asks for the conversation, then the mentor, then the student again. -/
theorem C21_ensure_conversation_is_idempotent_witness :
    (firstContactService.ensureCalls firstContactCalls).2
      = [JSON 200 [("conversationId", .int 42)], JSON 200 [("conversationId", .int 42)],
         JSON 200 [("conversationId", .int 42)]] ∧
    (firstContactService.ensureCalls firstContactCalls).1.db.conversations
      = [⟨42, some 1, some 2⟩] ∧
    ∃ convID,
      (∀ resp ∈ (firstContactService.ensureCalls firstContactCalls).2, resp.status = 200 →
        resp = JSON 200 [("conversationId", .int convID)]) ∧
      ((∃ resp ∈ (firstContactService.ensureCalls firstContactCalls).2, resp.status = 200) →
        (firstContactService.ensureCalls firstContactCalls).1.db.conversationsOf 1 2
          = [⟨convID, some 1, some 2⟩]) :=
  ⟨by decide, by decide,
    C21_ensure_conversation_is_idempotent 1 2 firstContactCalls firstContactService
      (by
        intro call hmem
        simp only [firstContactCalls, List.mem_cons, List.mem_singleton, List.not_mem_nil,
          or_false] at hmem
        rcases hmem with h | h | h <;> subst h
        · exact Or.inl ⟨rfl, none, rfl⟩
        · exact Or.inr ⟨rfl, rfl⟩
        · exact Or.inl ⟨rfl, none, rfl⟩)
      (by decide)⟩

/-- C23 in the scenario: identity 1 posts to conversation 5 the body of the
scenario, and a body that carries an id, an author, an author type and a time
of its own beside the same text. -/
theorem C23_row_and_payload_ignore_client_fields_witness :
    scenarioBody ≠ spoofBody ∧
    scenarioService.PostMessage spoofEnv (scenarioRequest 1)
      = scenarioService.PostMessage spoofEnv { scenarioRequest 1 with body := spoofBody } ∧
    (scenarioService.PostMessage spoofEnv
        { scenarioRequest 1 with body := spoofBody }).svc.db.messages
      = [⟨42, 5, 1, "student", "hi", 1000⟩] ∧
    (scenarioService.PostMessage spoofEnv { scenarioRequest 1 with body := spoofBody }).resp
      = JSON 200
          [("type", .str "message"), ("conversationId", .int 5), ("id", .int 42),
           ("authorId", .int 1), ("authorType", .str "student"), ("body", .str "hi"),
           ("createdAt", .time 1003)] :=
  ⟨by decide,
    (C23_row_and_payload_ignore_client_fields spoofEnv scenarioService (scenarioRequest 1)
      { scenarioRequest 1 with body := spoofBody } rfl rfl (by decide)).1,
    by decide, by decide⟩

/-! ## The order of a history page -/

theorem orderByCreatedAtDesc_spec {α : Type} (created_at : α → Time) (scan : ScanOrder α)
    (rows : List α) :
    (orderByCreatedAtDesc created_at scan rows).Perm rows ∧
    (orderByCreatedAtDesc created_at scan rows).Sorted
      (fun a b => created_at b ≤ created_at a) := by
  haveI : IsTotal α (fun a b => created_at b ≤ created_at a) := ⟨fun a b => le_total _ _⟩
  haveI : IsTrans α (fun a b => created_at b ≤ created_at a) :=
    ⟨fun a b c hab hbc => le_trans hbc hab⟩
  unfold orderByCreatedAtDesc
  exact ⟨(List.perm_insertionSort _ _).trans (scan.perm rows), List.sorted_insertionSort _ _⟩

/-- C25 as stated fails on ties: conversation 5 holds three messages of one
instant with the ids 1, 2 and 3, and participant 1 reads it. When the store
scans the table forward the page lists the ids 1, 2, 3, and when it scans the
table backward the page lists 3, 2, 1, so neither an ascending nor a descending
order of ids holds of every page. -/
theorem C25_same_instant_messages_come_in_scan_order :
    ((sameInstantService.History scenarioEnv (historyRequest 1 "5" "")).resp
      = JSON 200 [("items", .msgs [⟨1, 1, "student", "a", 1000⟩, ⟨2, 2, "mentor", "b", 1000⟩,
          ⟨3, 1, "student", "c", 1000⟩])]) ∧
    ((sameInstantService.History { scenarioEnv with scanMessages := ScanOrder.backward }
        (historyRequest 1 "5" "")).resp
      = JSON 200 [("items", .msgs [⟨3, 1, "student", "c", 1000⟩, ⟨2, 2, "mentor", "b", 1000⟩,
          ⟨1, 1, "student", "a", 1000⟩])]) ∧
    ¬ ([1, 2, 3] : List Int).Sorted (fun a b => b ≤ a) ∧
    ¬ ([3, 2, 1] : List Int).Sorted (fun a b => a ≤ b) := by
  refine ⟨by decide, by decide, ?_, ?_⟩ <;> simp [List.Sorted]

/-- C25, amended: when a participant reads conversation `convID` and the
`SELECT` succeeds, the page is the first `L` rows, `L` the page size, of a
rearrangement of all messages of that conversation in which no message is
newer than one before it: it holds messages of that conversation only, at most
`L` of them, the newest ones, newest first by `created_at`. -/
theorem C25_history_page_is_newest_first (env : Env) (s : Service) (r : Request)
    (convID : Int)
    (hid : ParamInt64 r "id" = some convID)
    (hmem : (s.isMember env 0 convID (UserID r)).1 = true)
    (hq : env.queryErr 1 = none) :
    ∃ rows : List MessageRow,
      rows.Perm (s.db.messages.filter fun row => row.conversation_id = convID) ∧
      (∀ row ∈ rows, row.conversation_id = convID ∧ row ∈ s.db.messages) ∧
      rows.Sorted (fun a b => b.created_at ≤ a.created_at) ∧
      (s.History env r).resp
        = JSON 200 [("items", .msgs
            ((rows.take (specPageSize (Atoi (r.query "limit"))).toNat).map fun row =>
              ⟨row.id, row.author_id, row.author_type, row.body, row.created_at⟩))] ∧
      ((rows.take (specPageSize (Atoi (r.query "limit"))).toNat).length : Int)
        ≤ specPageSize (Atoi (r.query "limit")) ∧
      ((rows.take (specPageSize (Atoi (r.query "limit"))).toNat).map fun row =>
          (⟨row.id, row.author_id, row.author_type, row.body, row.created_at⟩ : HistoryMsg)).Sorted
        (fun a b => b.CreatedAt ≤ a.CreatedAt) := by
  obtain ⟨hperm, hsorted⟩ := orderByCreatedAtDesc_spec MessageRow.created_at env.scanMessages
    (s.db.messages.filter fun row => row.conversation_id = convID)
  refine ⟨_, hperm, ?_, hsorted, ?_, ?_, ?_⟩
  · intro row hrow
    have := (hperm.mem_iff).mp hrow
    rw [List.mem_filter] at this
    exact ⟨by simpa using this.2, this.1⟩
  · rw [History_eq env s r convID hid]
    simp [hmem, selectMessages, hq]
  · have h1 := (specPageSize_range (Atoi (r.query "limit"))).1
    rw [List.length_take]
    omega
  · rw [List.Sorted, List.pairwise_map]
    exact (List.Pairwise.sublist (List.take_sublist _ _) hsorted)

/-- C25, amended, in the store with messages: participant 1 reads
conversation 5 with `limit=2`. -/
theorem C25_history_page_is_newest_first_witness :
    (historyService.History scenarioEnv (historyRequest 1 "5" "2")).resp
      = JSON 200 [("items", .msgs [⟨43, 1, "student", "three", 1100⟩,
          ⟨42, 2, "mentor", "two", 1000⟩])] ∧
    ∃ rows : List MessageRow,
      rows.Perm (historyService.db.messages.filter fun row => row.conversation_id = 5) ∧
      (∀ row ∈ rows, row.conversation_id = 5 ∧ row ∈ historyService.db.messages) ∧
      rows.Sorted (fun a b => b.created_at ≤ a.created_at) ∧
      (historyService.History scenarioEnv (historyRequest 1 "5" "2")).resp
        = JSON 200 [("items", .msgs
            ((rows.take
              (specPageSize (Atoi ((historyRequest 1 "5" "2").query "limit"))).toNat).map
                fun row => ⟨row.id, row.author_id, row.author_type, row.body, row.created_at⟩))] ∧
      ((rows.take
          (specPageSize (Atoi ((historyRequest 1 "5" "2").query "limit"))).toNat).length : Int)
        ≤ specPageSize (Atoi ((historyRequest 1 "5" "2").query "limit")) ∧
      ((rows.take
          (specPageSize (Atoi ((historyRequest 1 "5" "2").query "limit"))).toNat).map fun row =>
          (⟨row.id, row.author_id, row.author_type, row.body, row.created_at⟩ : HistoryMsg)).Sorted
        (fun a b => b.CreatedAt ≤ a.CreatedAt) :=
  ⟨by decide,
    C25_history_page_is_newest_first scenarioEnv historyService (historyRequest 1 "5" "2") 5
      (by decide) (by decide) (by decide)⟩

/-! ## The lock of the hub -/

theorem specLockRun_sends (conns : List Conn) :
    specLockRun .free (conns.map HubAction.send) = some .free := by
  induction conns with
  | nil => rfl
  | cons c conns ih =>
    simp only [specLockRun, List.map_cons, List.foldlM_cons, specLockStep, Option.bind_eq_bind,
      Option.some_bind] at ih ⊢
    exact ih

theorem BroadcastActions_eq (it : RangeOrder) (fails : Conn → Bool) (h : Hub) (room : String)
    (p : Payload) :
    h.BroadcastActions it room =
      [.rlock, .read room, .read room, .runlock]
        ++ (h.Broadcast it fails room p).sends.map fun x => HubAction.send x.conn := by
  have copy : ∀ (l acc : List Conn), l.foldl (fun conns c => conns ++ [c]) acc = acc ++ l := by
    intro l
    induction l with
    | nil => intro acc; simp
    | cons a l ih => intro acc; simp [ih]
  rw [Hub.Broadcast_sends]
  simp [Hub.BroadcastActions, copy, List.map_map, Function.comp_def]

/-- In a run of steps that keeps the lock discipline, the call holds the
exclusive lock before each write. -/
theorem specLockRun_write (st final : LockState) (before after : List HubAction)
    (room : String)
    (h : specLockRun st (before ++ HubAction.write room :: after) = some final) :
    specLockRun st before = some .exclusive := by
  unfold specLockRun at h ⊢
  rw [List.foldlM_append] at h
  cases hb : List.foldlM specLockStep st before with
  | none => simp [hb] at h
  | some x =>
    cases x with
    | exclusive => rfl
    | free => simp [hb, List.foldlM_cons, specLockStep] at h
    | shared => simp [hb, List.foldlM_cons, specLockStep] at h

/-- C26: the steps of `Join` and of `Leave` keep the lock discipline, so each
write of the mapping lies between `Lock` and `Unlock`; so do the steps of
`Broadcast`, which are `RLock`, two reads, `RUnlock` and then the sends, one
for each send of the call, so each send comes when the call no longer holds
the lock; and every call ends with the lock given back. -/
theorem C26_lock_discipline (it : RangeOrder) (fails : Conn → Bool) (h : Hub) (room : String)
    (c : Conn) (p : Payload) :
    specLockRun .free (h.JoinActions room) = some .free ∧
    specLockRun .free (h.LeaveActions room c) = some .free ∧
    specLockRun .free (h.BroadcastActions it room) = some .free ∧
    h.BroadcastActions it room =
      [.rlock, .read room, .read room, .runlock]
        ++ (h.Broadcast it fails room p).sends.map (fun x => HubAction.send x.conn) ∧
    (∀ before after, h.JoinActions room = before ++ HubAction.write room :: after →
      specLockRun .free before = some .exclusive) ∧
    (∀ before after, h.LeaveActions room c = before ++ HubAction.write room :: after →
      specLockRun .free before = some .exclusive) := by
  refine ⟨?_, ?_, ?_, BroadcastActions_eq it fails h room p, ?_, ?_⟩
  · unfold Hub.JoinActions
    cases (h.rooms room).isSome <;> rfl
  · unfold Hub.LeaveActions
    cases h.rooms room with
    | none => rfl
    | some m => by_cases hm : (m.erase c).card = 0 <;> simp [hm] <;> rfl
  · rw [BroadcastActions_eq it fails h room p]
    have := specLockRun_sends ((h.Broadcast it fails room p).sends.map Send.conn)
    rw [List.map_map] at this
    simpa [specLockRun, specLockStep] using this
  · intro before after heq
    have hrun : specLockRun .free (h.JoinActions room) = some .free := by
      unfold Hub.JoinActions
      cases (h.rooms room).isSome <;> rfl
    rw [heq] at hrun
    exact specLockRun_write _ _ before after room hrun
  · intro before after heq
    have hrun : specLockRun .free (h.LeaveActions room c) = some .free := by
      unfold Hub.LeaveActions
      cases h.rooms room with
      | none => rfl
      | some m => by_cases hm : (m.erase c).card = 0 <;> simp [hm] <;> rfl
    rw [heq] at hrun
    exact specLockRun_write _ _ before after room hrun

theorem HubActions_examples :
    NewHub.JoinActions "global"
      = [.lock, .read "global", .write "global", .read "global", .write "global", .unlock] ∧
    (NewHub.Join "global" 8).JoinActions "global"
      = [.lock, .read "global", .read "global", .write "global", .unlock] ∧
    (NewHub.Join "global" 8).LeaveActions "global" 8
      = [.lock, .read "global", .write "global", .read "global", .write "global", .unlock] ∧
    NewHub.LeaveActions "global" 8 = [.lock, .read "global", .unlock] ∧
    ((NewHub.Join "global" 8).Join "global" 9).BroadcastActions RangeOrder.ascending "global"
      = [.rlock, .read "global", .read "global", .runlock, .send 8, .send 9] ∧
    specLockRun .free [.rlock, .read "global", .send 8, .runlock] = none ∧
    specLockRun .free [.read "global"] = none ∧
    specLockRun .free [.rlock, .write "global", .runlock] = none := by
  decide

/-- C26 at the hub that one `Join("global", 8)` builds: a second `Join` of the
room writes once, after `Lock` and two reads. -/
theorem C26_lock_discipline_witness :
    (NewHub.Join "global" 8).JoinActions "global"
      = [.lock, .read "global", .read "global"] ++ HubAction.write "global" :: [.unlock] ∧
    specLockRun .free [.lock, .read "global", .read "global"] = some .exclusive :=
  ⟨by decide,
    (C26_lock_discipline RangeOrder.ascending (fun _ => false) (NewHub.Join "global" 8)
      "global" 9 []).2.2.2.2.1 [.lock, .read "global", .read "global"] [.unlock]
      (by decide)⟩

end Upskill
